import Mathlib

/-!
Verification of the Live Preview Reverse Proxy of the openbuilder (Hatchway)
repository, a shallow embedding of the dev-server proxy route handler
(`GET`/`POST /api/projects/:id/proxy`): path normalization, transport
selection, upstream-error translation, and the HTML / script / style
content rewriters.  Strings are modelled as `List Char`, JavaScript string
and regex operations as executable scanners over them, faithful to the
left-to-right, non-overlapping semantics of `String.prototype.replace`
with a global regex (the replacement is emitted verbatim and never
rescanned by the same pass).
-/

namespace Hatchway

set_option maxRecDepth 40000

/-! ## JavaScript string primitives -/
/-- Case-sensitive prefix test on character lists. -/
def strPre : List Char → List Char → Bool
  | [], _ => true
  | _ :: _, [] => false
  | p :: ps, c :: cs => p == c && strPre ps cs

/-- Case-insensitive prefix test (both sides lowered), the semantics of a
case-insensitive JavaScript regex literal. -/
def ciPre : List Char → List Char → Bool
  | [], _ => true
  | _ :: _, [] => false
  | p :: ps, c :: cs => p.toLower == c.toLower && ciPre ps cs

/-- JS `String.prototype.includes`: some position of `s` starts with `pat`. -/
def hasSub (pat : List Char) : List Char → Bool
  | [] => strPre pat []
  | c :: cs => strPre pat (c :: cs) || hasSub pat cs

/-- Case-insensitive substring test (`/pat/i.test(s)` for a literal pattern). -/
def ciHasSub (pat : List Char) : List Char → Bool
  | [] => ciPre pat []
  | c :: cs => ciPre pat (c :: cs) || ciHasSub pat cs

/-- Case-sensitive suffix test (JS `String.prototype.endsWith`). -/
def strSuf (pat s : List Char) : Bool :=
  strPre pat.reverse s.reverse

/-- Case-insensitive suffix test (a `/x$/i` regex). -/
def ciSuf (pat s : List Char) : Bool :=
  ciPre pat.reverse s.reverse

/-- String-level wrapper for JS `includes`. -/
def jsIncludes (s pat : String) : Bool := hasSub pat.data s.data

/-- String-level wrapper for JS `endsWith`. -/
def jsEndsWith (s pat : String) : Bool := strSuf pat.data s.data

/-- The characters JS treats as `\s` (the ASCII ones; the bodies handled by
the proxy are ASCII). -/
def jsWs (c : Char) : Bool :=
  c == ' ' || c == '\t' || c == '\n' || c == '\r' || c == '\x0b' || c == '\x0c'

/-- A single or double quote, the character class `["']`. -/
def isQuote (c : Char) : Bool := c == '"' || c == '\''

/-- JS `String.prototype.trim` (ASCII whitespace). -/
def jsTrim (s : List Char) : List Char :=
  ((s.dropWhile jsWs).reverse.dropWhile jsWs).reverse

/-! ## encodeURIComponent -/
/-- Uppercase hexadecimal digit. -/
def hexDigit (n : Nat) : Char :=
  if n < 10 then Char.ofNat ('0'.toNat + n) else Char.ofNat ('A'.toNat + n - 10)

/-- Percent-encoding of one byte. -/
def pctByte (b : Nat) : List Char :=
  ['%', hexDigit (b / 16 % 16), hexDigit (b % 16)]

/-- UTF-8 bytes of a code point. -/
def utf8Bytes (n : Nat) : List Nat :=
  if n < 0x80 then [n]
  else if n < 0x800 then [0xC0 + n / 64, 0x80 + n % 64]
  else if n < 0x10000 then [0xE0 + n / 4096, 0x80 + n / 64 % 64, 0x80 + n % 64]
  else [0xF0 + n / 262144, 0x80 + n / 4096 % 64, 0x80 + n / 64 % 64, 0x80 + n % 64]

/-- The characters `encodeURIComponent` leaves unescaped:
`A-Z a-z 0-9 - _ . ! ~ * ' ( )`. -/
def encKeep (c : Char) : Bool :=
  c.isAlpha || c.isDigit || c == '-' || c == '_' || c == '.' || c == '!' ||
  c == '~' || c == '*' || c == '\'' || c == '(' || c == ')'

/-- JS `encodeURIComponent` over a character list. -/
def encodeURIComponent (s : List Char) : List Char :=
  (s.map fun c => if encKeep c then [c] else (utf8Bytes c.toNat).flatMap pctByte).flatten

/-! ## The Path Normalizer

Source (route handler, both `GET` and `POST`):

    if (/^\/?static\/(chunks|css|media|development|webpack)\//.test(path)) {
      path = '/_next/' + path.replace(/^\//, '');
    }
-/
/-- Test of the anchored regex `^\/?static\/(chunks|css|media|development|webpack)\//`. -/
def nextChunkShape (p : List Char) : Bool :=
  let p' := match p with
    | '/' :: t => t
    | t => t
  strPre "static/".data p' &&
    (let t := p'.drop 7
     strPre "chunks/".data t || strPre "css/".data t || strPre "media/".data t ||
     strPre "development/".data t || strPre "webpack/".data t)

/-- JS `path.replace(/^\//, '')`: drop one leading slash. -/
def dropLeadSlash : List Char → List Char
  | '/' :: t => t
  | t => t

/-- The path normalizer: re-anchor Next.js chunk paths missing the `/_next/`
root prefix; every other path is returned unchanged. -/
def normalizeNextPath (p : List Char) : List Char :=
  if nextChunkShape p then "/_next/".data ++ dropLeadSlash p else p

/-- String-level normalizer. -/
def normalizePath (p : String) : String :=
  ⟨normalizeNextPath p.data⟩

/-! ## Session snapshot and transport resolution

The session record is the `projects` row the handler reads.  Its type is
declared outside the staged sources (the Drizzle schema); the fields and the
`devServerState` enumeration are modelled from the spec's data model
(`devServerState ∈ {Stopped, Starting, Running, Crashed}`, `devServerPort`
an integer valid only when running, `tunnelURL` and the relay/runner id
optional).  `USE_WS_PROXY` and `buildWebSocketServer.isRunnerConnected` are
process environment and the relay collaborator's attachment snapshot. -/
inductive DevStatus
  | stopped
  | starting
  | running
  | crashed
deriving DecidableEq, Repr

/-- The session fields the proxy reads from the `projects` row. -/
structure Proj where
  devServerStatus : DevStatus
  devServerPort : Option Nat
  tunnelUrl : Option String
  runnerId : Option String
deriving DecidableEq, Repr

/-- Process-wide environment of the handler: the `USE_WS_PROXY` feature flag
and the relay server's runner-attachment snapshot. -/
structure Env where
  useWsProxy : Bool
  runnerConnected : String → Bool

/-- JS falsiness of `proj.devServerPort` (`null`, `undefined` or `0`). -/
def portFalsy : Option Nat → Bool
  | none => true
  | some n => n == 0

/-- Truthiness-and-call of `proj.runnerId && isRunnerConnected(proj.runnerId)`. -/
def connectedRunner (env : Env) (proj : Proj) : Bool :=
  match proj.runnerId with
  | some r => env.runnerConnected r
  | none => false

/-- Whether a relay peer is confirmed attached, as the handler realizes it:
`USE_WS_PROXY && proj.runnerId && buildWebSocketServer.isRunnerConnected(proj.runnerId)`. -/
def relayAttached (env : Env) (proj : Proj) : Bool :=
  env.useWsProxy && connectedRunner env proj

/-- The transport chosen for a routed request. -/
inductive Transport
  | directLocal (port : Nat)
  | wsProxy (runner : String)
  | tunnel (url : String)
deriving DecidableEq, Repr

/-- Outcome of the handler's transport selection, mirroring the route
handler's decision chain (including its two distinct pending branches). -/
inductive ResolveOutcome
  | notRunning
  | pendingWs
  | pendingTunnel
  | route (t : Transport)
deriving DecidableEq, Repr

/-- The transport resolver, a faithful transcription of the decision chain of
the `GET` (and identically the `POST`) proxy handler:

    if (proj.devServerStatus !== 'running' || !proj.devServerPort) -> 503
    if (frontendIsLocal) -> direct localhost fetch
    else if (USE_WS_PROXY && proj.runnerId && isRunnerConnected(proj.runnerId)) -> ws proxy
    else if (proj.tunnelUrl) -> tunnel fetch
    else if (USE_WS_PROXY && proj.runnerId) -> 202 pending (websocket)
    else -> 202 pending (tunnel)
-/
def resolveTransport (env : Env) (proj : Proj) (isLocal : Bool) : ResolveOutcome :=
  if proj.devServerStatus ≠ DevStatus.running ∨ portFalsy proj.devServerPort then
    .notRunning
  else if isLocal then
    .route (.directLocal (proj.devServerPort.getD 0))
  else if relayAttached env proj then
    .route (.wsProxy (proj.runnerId.getD ""))
  else if proj.tunnelUrl.isSome then
    .route (.tunnel (proj.tunnelUrl.getD ""))
  else if env.useWsProxy && proj.runnerId.isSome then
    .pendingWs
  else
    .pendingTunnel

/-- Locality classification of the caller:
`requestHost.includes('localhost') || requestHost.includes('127.0.0.1')`. -/
def frontendIsLocal (requestHost : String) : Bool :=
  jsIncludes requestHost "localhost" || jsIncludes requestHost "127.0.0.1"

/-! ## Global-replace scanner

`String.prototype.replace` with a `/g` regex scans left to right; at each
position it either emits the head character unchanged, or emits the
callback's replacement for a match and resumes after the matched text.  A
matcher returns `some (replacement, k)` for a match of length `k + 1` (every
regex used by the proxy matches at least one character).  The scanner is
fuel-based (structural on the fuel) so that it evaluates inside the kernel;
fuel at least the input length is always enough. -/
/-- One pass of global replace, with fuel. -/
def scanF (m : List Char → Option (List Char × Nat)) : Nat → List Char → List Char
  | _, [] => []
  | 0, s => s
  | f + 1, c :: cs =>
    match m (c :: cs) with
    | some (r, k) => r ++ scanF m f (cs.drop k)
    | none => c :: scanF m f cs

/-- Global replace: `s.replace(re, cb)` for a global regex. -/
def scanRep (m : List Char → Option (List Char × Nat)) (s : List Char) : List Char :=
  scanF m s.length s

/-- Replace the first case-insensitive occurrence of the literal `pat`
(`s.replace(/pat/i, repl)` with a verbatim replacement). -/
def repFirstCI (pat repl : List Char) : List Char → List Char
  | [] => []
  | c :: cs =>
    if ciPre pat (c :: cs) then repl ++ (c :: cs).drop pat.length
    else c :: repFirstCI pat repl cs

/-- Definite mismatch of a case-insensitive literal within `s`: some index
below `min |pat| |s|` differs, so no continuation can repair the prefix. -/
def ciMismatch : List Char → List Char → Bool
  | [], _ => false
  | _ :: _, [] => false
  | p :: ps, c :: cs => (p.toLower != c.toLower) || ciMismatch ps cs

/-- Case-sensitive variant. -/
def csMismatch : List Char → List Char → Bool
  | [], _ => false
  | _ :: _, [] => false
  | p :: ps, c :: cs => (p != c) || csMismatch ps cs

/-! ## The regex matchers of the content rewriters

Each matcher implements one regex of the proxy route handler at a single
start position, returning `some (replacement, k)` for a match of `k + 1`
characters (replacement already produced by the JS callback), `none` when
the regex cannot match at this position. -/
/-- Split at the first case-insensitive occurrence of a literal:
`some (before, after)` with the occurrence itself removed. -/
def splitAtCI (pat : List Char) : List Char → Option (List Char × List Char)
  | [] => none
  | c :: cs =>
    if ciPre pat (c :: cs) then some ([], (c :: cs).drop pat.length)
    else
      match splitAtCI pat cs with
      | some (a, b) => some (c :: a, b)
      | none => none

/-- The proxy URL prefix `/api/projects/${id}/proxy?path=`. -/
def proxyPre (id : String) : List Char :=
  "/api/projects/".data ++ id.data ++ "/proxy?path=".data

/-- Matcher of the HTML attribute rewrite

    /(src|href)=(["'])(\/(?!\/)[^"']*)(["'])/gi

with its callback: skip paths that start with `/api/projects/` (the source
tests `assetPath.startsWith`), append `?direct` to bare `.css` paths, and
rewrite to `attr=<q><proxyPrefix><encoded path><q>`. -/
def mAttr (id : String) (s : List Char) : Option (List Char × Nat) :=
  let nameLen : Option Nat :=
    if ciPre "src=".data s then some 3
    else if ciPre "href=".data s then some 4
    else none
  match nameLen with
  | none => none
  | some n =>
    match s.drop (n + 1) with
    | q :: s₂ =>
      if isQuote q then
        match s₂ with
        | '/' :: s₃ =>
          if s₃.head? == some '/' then none
          else
            let run := s₃.takeWhile fun c => !isQuote c
            match s₃.drop run.length with
            | q₂ :: _ =>
              if isQuote q₂ then
                let assetPath := '/' :: run
                let matchLen := n + 1 + 1 + 1 + run.length + 1
                let repl :=
                  if strPre "/api/projects/".data assetPath then s.take matchLen
                  else
                    let pathWithParams :=
                      if ciSuf ".css".data assetPath && !hasSub "?".data assetPath then
                        assetPath ++ "?direct".data
                      else assetPath
                    s.take n ++ '=' :: q ::
                      (proxyPre id ++ encodeURIComponent pathWithParams) ++ [q]
                some (repl, matchLen - 1)
              else none
            | [] => none
        | _ => none
      else none
    | [] => none

/-- Matcher of the inline module-script import rewrite

    /(from\s+["']|import\s*\(["'])(\/[^"']+)(["'])/g

with its callback rewriting the absolute specifier to the proxy URL. -/
def mInline (id : String) (s : List Char) : Option (List Char × Nat) :=
  let preLen : Option Nat :=
    if strPre "from".data s then
      let ws := (s.drop 4).takeWhile jsWs
      if ws.length ≥ 1 then
        match s.drop (4 + ws.length) with
        | q :: _ => if isQuote q then some (4 + ws.length + 1) else none
        | [] => none
      else none
    else if strPre "import".data s then
      let ws := (s.drop 6).takeWhile jsWs
      match s.drop (6 + ws.length) with
      | '(' :: rest =>
        match rest with
        | q :: _ => if isQuote q then some (6 + ws.length + 2) else none
        | [] => none
      | _ => none
    else none
  match preLen with
  | none => none
  | some p =>
    match s.drop p with
    | '/' :: s₂ =>
      let run := s₂.takeWhile fun c => !isQuote c
      if run.length ≥ 1 then
        match s₂.drop run.length with
        | q₂ :: _ =>
          if isQuote q₂ then
            let importPath := '/' :: run
            let matchLen := p + 1 + run.length + 1
            some (s.take p ++ (proxyPre id ++ encodeURIComponent importPath) ++ [q₂],
              matchLen - 1)
          else none
        | [] => none
      else none
    | _ => none

/-! ## The HTML rewriter -/
/-- Before-the-id half of the `earlyScripts` client bootstrap template of the
HTML rewriter (the TS template literal with its escapes resolved). -/
def esPre : String :=
  "<script>\n(function() \x7b\n  var proxyPrefix = '/api/projects/"

/-- After-the-id half of the `earlyScripts` template. -/
def esPost : String :=
  "/proxy?path=';\n  \n  // Helper to extract path from URL (handles both relative and absolute URLs)\n  function extractPath(url) \x7b\n    if (!url || typeof url !== 'string') return null;\n    \n    // Already a relative path\n    if (!url.startsWith('http://') && !url.startsWith('https://') && !url.startsWith('//')) \x7b\n      return url;\n    \x7d\n    \n    // Absolute URL - extract pathname\n    try \x7b\n      var parsed = new URL(url);\n      return parsed.pathname + parsed.search;\n    \x7d catch (e) \x7b\n      return null;\n    \x7d\n  \x7d\n  \n  // Helper to check if a path should be proxied\n  function shouldProxy(url) \x7b\n    if (!url || typeof url !== 'string') return false;\n    if (url.includes('/api/projects/')) return false;\n    \n    // Extract path from URL (works for both relative and absolute URLs)\n    var path = extractPath(url);\n    if (!path) return false;\n    \n    // Check for known framework paths that need proxying\n    if (path.startsWith('/src/') || \n        path.startsWith('/@') || \n        path.startsWith('/node_modules/') ||\n        path.startsWith('/_serverFn/') ||\n        path.startsWith('/_next/')) \x7b  // Next.js chunks\n      return true;\n    \x7d\n    // Next.js webpack may construct chunk URLs without /_next/ prefix\n    if (path.match(/^\\/?(static\\/(chunks|css|media|development|webpack)\\/)/)) \x7b\n      return true;\n    \x7d\n    // Check for static assets by file extension\n    if (path.match(/\\.(css|js|ts|tsx|jsx|mjs|json|woff2?|ttf|eot|svg|png|jpe?g|gif|webp|ico)(\\?.*)?$/i)) \x7b\n      return true;\n    \x7d\n    return false;\n  \x7d\n  \n  // Normalize paths that may be Next.js chunk paths missing the /_next/ prefix\n  function normalizeNextPath(path) \x7b\n    if (!path) return path;\n    if (path.match(/^\\/?(static\\/(chunks|css|media|development|webpack)\\/)/)) \x7b\n      return '/_next/' + path.replace(/^\\//, '');\n    \x7d\n    return path;\n  \x7d\n\n  function proxyUrl(url) \x7b\n    var path = extractPath(url);\n    if (!path) return url;\n    path = normalizeNextPath(path);\n    return proxyPrefix + encodeURIComponent(path);\n  \x7d\n\n  // Webpack public path override is handled server-side by rewriting __webpack_require__.p\n  // in webpack.js content. No client-side __webpack_require__ interception needed.\n\n  // Path normalization for TanStack Router\n  try \x7b\n    var url = new URL(window.location.href);\n    var actualPath = url.searchParams.get('path') || '/';\n    if (window.location.pathname !== actualPath) \x7b\n      var newUrl = window.location.origin + actualPath + (url.hash || '');\n      history.replaceState(null, '', newUrl);\n    \x7d\n  \x7d catch (e) \x7b\n    console.warn('[Hatchway] Path normalization failed:', e);\n  \x7d\n\n  // Fetch interceptor\n  var originalFetch = window.fetch;\n  window.fetch = function(resource, options) \x7b\n    if (typeof resource === 'string' && shouldProxy(resource)) \x7b\n      var proxied = proxyUrl(resource);\n      console.log('[Hatchway Proxy] Intercepted fetch:', resource, '->', proxied);\n      return originalFetch(proxied, options);\n    \x7d\n    return originalFetch(resource, options);\n  \x7d;\n\n  // XMLHttpRequest interceptor\n  var originalXHROpen = XMLHttpRequest.prototype.open;\n  XMLHttpRequest.prototype.open = function(method, url) \x7b\n    if (typeof url === 'string' && shouldProxy(url)) \x7b\n      arguments[1] = proxyUrl(url);\n    \x7d\n    return originalXHROpen.apply(this, arguments);\n  \x7d;\n\n  // Intercept dynamic element creation for link/script/img elements via setAttribute\n  var originalSetAttribute = Element.prototype.setAttribute;\n  Element.prototype.setAttribute = function(name, value) \x7b\n    if ((name === 'href' || name === 'src') && typeof value === 'string' && shouldProxy(value)) \x7b\n      value = proxyUrl(value);\n    \x7d\n    return originalSetAttribute.call(this, name, value);\n  \x7d;\n\n  // CRITICAL: Intercept direct property assignments for script.src and link.href\n  // Webpack/Next.js set these directly, not via setAttribute\n  // This catches dynamic chunk loading that bypasses setAttribute\n  \n  // Intercept script.src direct assignments\n  // Must handle both plain strings AND TrustedScriptURL objects (used by webpack Trusted Types)\n  var scriptSrcDescriptor = Object.getOwnPropertyDescriptor(HTMLScriptElement.prototype, 'src');\n  if (scriptSrcDescriptor && scriptSrcDescriptor.set) \x7b\n    Object.defineProperty(HTMLScriptElement.prototype, 'src', \x7b\n      set: function(value) \x7b\n        var strValue = (typeof value === 'string') ? value : (value && value.toString ? value.toString() : null);\n        if (strValue && shouldProxy(strValue)) \x7b\n          var proxied = proxyUrl(strValue);\n          console.log('[Hatchway Proxy] Intercepted script.src:', strValue, '->', proxied);\n          value = proxied;\n        \x7d\n        scriptSrcDescriptor.set.call(this, value);\n      \x7d,\n      get: scriptSrcDescriptor.get,\n      configurable: true\n    \x7d);\n  \x7d\n\n  // Intercept link.href direct assignments (for CSS chunks)\n  var linkHrefDescriptor = Object.getOwnPropertyDescriptor(HTMLLinkElement.prototype, 'href');\n  if (linkHrefDescriptor && linkHrefDescriptor.set) \x7b\n    Object.defineProperty(HTMLLinkElement.prototype, 'href', \x7b\n      set: function(value) \x7b\n        var strValue = (typeof value === 'string') ? value : (value && value.toString ? value.toString() : null);\n        if (strValue && shouldProxy(strValue)) \x7b\n          value = proxyUrl(strValue);\n        \x7d\n        linkHrefDescriptor.set.call(this, value);\n      \x7d,\n      get: linkHrefDescriptor.get,\n      configurable: true\n    \x7d);\n  \x7d\n\n  // Intercept img.src direct assignments (for dynamically loaded images)\n  var imgSrcDescriptor = Object.getOwnPropertyDescriptor(HTMLImageElement.prototype, 'src');\n  if (imgSrcDescriptor && imgSrcDescriptor.set) \x7b\n    Object.defineProperty(HTMLImageElement.prototype, 'src', \x7b\n      set: function(value) \x7b\n        var strValue = (typeof value === 'string') ? value : (value && value.toString ? value.toString() : null);\n        if (strValue && shouldProxy(strValue)) \x7b\n          value = proxyUrl(strValue);\n        \x7d\n        imgSrcDescriptor.set.call(this, value);\n      \x7d,\n      get: imgSrcDescriptor.get,\n      configurable: true\n    \x7d);\n  \x7d\n\x7d)();\n</script>"

/-- The client-bootstrap interception snippet `earlyScripts` for a session id
(the template with `${id}` spliced in). -/
def earlyScripts (id : String) : List Char :=
  esPre.data ++ id.data ++ esPost.data

/-- Search for `type=["']module["']` (case-insensitively) among characters
before the first `>`; returns the number of characters skipped before the
token, the lazy semantics of `[^>]*?type=["']module["']`. -/
def findTypeModule : List Char → Option Nat
  | [] => none
  | c :: cs =>
    if c == '>' then none
    else if ciPre "type=".data (c :: cs) &&
        (match (c :: cs).drop 5 with
         | q :: r =>
           isQuote q && ciPre "module".data r &&
             (match r.drop 6 with
              | q₂ :: _ => isQuote q₂
              | [] => false)
         | [] => false) then
      some 0
    else
      match findTypeModule cs with
      | some k => some (k + 1)
      | none => none

/-- Matcher of the inline module-script rewrite

    /<script\s+([^>]*?type=["']module["'][^>]*?)>([\s\S]*?)<\/script>/gi

whose callback re-emits `<script ${attrs}>` with the body passed through the
inline import rewrite. -/
def mModS (id : String) (s : List Char) : Option (List Char × Nat) :=
  if ciPre "<script".data s then
    let s₁ := s.drop 7
    let ws := s₁.takeWhile jsWs
    if ws.length ≥ 1 then
      let s₂ := s₁.drop ws.length
      match findTypeModule s₂ with
      | none => none
      | some k =>
        let tail := s₂.drop (k + 13)
        let gtRun := tail.takeWhile fun c => c != '>'
        match tail.drop gtRun.length with
        | '>' :: body =>
          let attrsLen := k + 13 + gtRun.length
          match splitAtCI "</script>".data body with
          | none => none
          | some (content, _) =>
            let matchLen := 7 + ws.length + attrsLen + 1 + content.length + 9
            some ("<script ".data ++ s₂.take attrsLen ++ '>' ::
                (scanRep (mInline id) content ++ "</script>".data),
              matchLen - 1)
        | _ => none
    else none
  else none

/-- Matcher of the literal global replace `payload.replace(/\/_next\//g, p)`,
`p` the proxy prefix with `%2F_next%2F`. -/
def mNextLit (id : String) (s : List Char) : Option (List Char × Nat) :=
  if strPre "/_next/".data s then
    some ("/api/projects/".data ++ id.data ++ "/proxy?path=%2F_next%2F".data, 6)
  else none

/-- Matcher of the RSC hydration-payload rewrite

    /(<script>self\.__next_f\.push\(\[1,)([\s\S]*?)("\]\)<\/script>)/gi

whose callback rewrites every `/_next/` inside the payload. -/
def mRSC (id : String) (s : List Char) : Option (List Char × Nat) :=
  if ciPre "<script>self.__next_f.push([1,".data s then
    let s₁ := s.drop 30
    match splitAtCI "\"])</script>".data s₁ with
    | none => none
    | some (payload, _) =>
      let matchLen := 30 + payload.length + 12
      some (s.take 30 ++ scanRep (mNextLit id) payload ++
          (s.drop (30 + payload.length)).take 12,
        matchLen - 1)
  else none

/-- HTML step 1: inject the bootstrap snippet after the first `<head>`
(`html.replace(/<head>/i, headTag)`, applied only when `/<head>/i` tests
true). -/
def htmlPass1 (id : String) (html : List Char) : List Char :=
  if ciHasSub "<head>".data html then
    repFirstCI "<head>".data ("<head>\n    ".data ++ earlyScripts id) html
  else html

/-- HTML step 2: the `src`/`href` attribute rewrite. -/
def htmlPass2 (id : String) : List Char → List Char :=
  scanRep (mAttr id)

/-- HTML step 3: the inline module-script import rewrite. -/
def htmlPass3 (id : String) : List Char → List Char :=
  scanRep (mModS id)

/-- HTML step 4: the RSC hydration-payload rewrite. -/
def htmlPass4 (id : String) : List Char → List Char :=
  scanRep (mRSC id)

/-- HTML step 5: append the selection/overlay script before `</body>` when
present, else at the end.  Modelled from the spec: `SELECTION_SCRIPT` is the
overlay/selection script body, an opaque, externally supplied script appended
verbatim (its definition is outside the staged sources), so this step is
parameterized by it. -/
def htmlPass5 (sel : String) (html : List Char) : List Char :=
  if ciHasSub "</body>".data html then
    repFirstCI "</body>".data
      ("<script>".data ++ sel.data ++ "</script></body>".data) html
  else html ++ "<script>".data ++ sel.data ++ "</script>".data

/-- The complete HTML rewriter of the proxy `GET` handler, the five passes in
source order. -/
def htmlRewrite (id sel : String) (html : List Char) : List Char :=
  htmlPass5 sel (htmlPass4 id (htmlPass3 id (htmlPass2 id (htmlPass1 id html))))

/-! ## The script rewriter -/
/-- Test of the unanchored regex `/\.js(\?|$)/`. -/
def dotJsQTest : List Char → Bool
  | [] => false
  | c :: cs =>
    (strPre ".js".data (c :: cs) &&
      (let rest := cs.drop 2
       rest.isEmpty || rest.head? == some '?')) ||
    dotJsQTest cs

/-- Matcher of the webpack public-path patch

    /__webpack_require__\.p\s*=\s*["'](\/_next\/)["']/g

whose callback emits `__webpack_require__.p="<proxyPrefix><encoded /_next/>"`. -/
def mWebpackP (id : String) (s : List Char) : Option (List Char × Nat) :=
  if strPre "__webpack_require__.p".data s then
    let s₁ := s.drop 21
    let ws₁ := s₁.takeWhile jsWs
    match s₁.drop ws₁.length with
    | '=' :: s₂ =>
      let ws₂ := s₂.takeWhile jsWs
      match s₂.drop ws₂.length with
      | q :: s₃ =>
        if isQuote q && strPre "/_next/".data s₃ then
          match s₃.drop 7 with
          | q₂ :: _ =>
            if isQuote q₂ then
              let matchLen := 21 + ws₁.length + 1 + ws₂.length + 1 + 7 + 1
              some ("__webpack_require__.p=\"".data ++
                  (proxyPre id ++ encodeURIComponent "/_next/".data) ++ ['"'],
                matchLen - 1)
            else none
          | [] => none
        else none
      | [] => none
    | _ => none
  else none

/-- Matcher of the query-preserving pathname patch: the literal global replace
`js.replace(/new URL\(href\)\.pathname/g, 'new URL(href).pathname+new URL(href).search')`. -/
def mPathname (s : List Char) : Option (List Char × Nat) :=
  if strPre "new URL(href).pathname".data s then
    some ("new URL(href).pathname+new URL(href).search".data, 21)
  else none

/-- Matcher of the `?url` asset-export rewrite

    /export\s+default\s+"(\/[^"]+\.css)"/g

whose callback emits `export default "<proxyPrefix><encoded path?direct>"`. -/
def mExportUrl (id : String) (s : List Char) : Option (List Char × Nat) :=
  if strPre "export".data s then
    let ws₁ := (s.drop 6).takeWhile jsWs
    if ws₁.length ≥ 1 && strPre "default".data ((s.drop 6).drop ws₁.length) then
      let s₂ := (s.drop 6).drop (ws₁.length + 7)
      let ws₂ := s₂.takeWhile jsWs
      if ws₂.length ≥ 1 then
        match s₂.drop ws₂.length with
        | '"' :: '/' :: s₃ =>
          let run := s₃.takeWhile fun c => c != '"'
          if run.length ≥ 5 && strSuf ".css".data run then
            match s₃.drop run.length with
            | '"' :: _ =>
              let matchLen := 6 + ws₁.length + 7 + ws₂.length + 1 + 1 + run.length + 1
              some ("export default \"".data ++
                  (proxyPre id ++
                    encodeURIComponent (('/' :: run) ++ "?direct".data)) ++ ['"'],
                matchLen - 1)
            | _ => none
          else none
        | _ => none
      else none
    else none
  else none

/-- JS `path.lastIndexOf('/')` composed with `substring(0, ·)`: the module's
directory, empty when the path has no slash. -/
def moduleDirOf (modPath : List Char) : List Char :=
  let rev := modPath.reverse
  let tail := rev.takeWhile fun c => c != '/'
  if tail.length == modPath.length then [] else modPath.take (modPath.length - tail.length - 1)

/-- Split a character list on `/`. -/
def splitSlash (l : List Char) : List (List Char) :=
  match l with
  | [] => [[]]
  | c :: cs =>
    let r := splitSlash cs
    if c == '/' then [] :: r
    else
      match r with
      | a :: b => (c :: a) :: b
      | [] => [[c]]

/-- Process the segments of a relative reference against a base directory
stack: `.` is dropped, `..` pops (never past the root), others are pushed; a
final `.` or `..` leaves a trailing empty segment (the URL
remove-dot-segments algorithm). -/
def resolveSegs (stack : List (List Char)) : List (List Char) → List (List Char)
  | [] => stack
  | seg :: rest =>
    if seg = ".".data then
      if rest.isEmpty then resolveSegs stack [[]] else resolveSegs stack rest
    else if seg = "..".data then
      if rest.isEmpty then resolveSegs stack.dropLast [[]]
      else resolveSegs stack.dropLast rest
    else resolveSegs (stack ++ [seg]) rest

/-- `new URL(ref, base).pathname` for a relative `ref` against the base URL
`http://dummy<moduleDir>/`: join the base directory's segments with the
reference's, processing dot segments. -/
def urlResolvePathname (ref moduleDir : List Char) : List Char :=
  let baseSegs := (splitSlash (moduleDir ++ ['/'])).dropLast
  let baseSegs := if baseSegs.head? == some ([] : List Char) then baseSegs.tail else baseSegs
  let segs := resolveSegs baseSegs (splitSlash ref)
  '/' :: (segs.intersperse "/".data).flatten

/-- Matcher of the TanStack CSS-import rewrite

    /(from\s+["'])([^"']+\.css)(\?url)?(["'])/g

whose callback skips already-proxied paths, resolves `./`-relative paths
against the module's own directory, and keeps the `?url` marker. -/
def mCssImport (id : String) (modPath : List Char) (s : List Char) :
    Option (List Char × Nat) :=
  if strPre "from".data s then
    let ws := (s.drop 4).takeWhile jsWs
    if ws.length ≥ 1 then
      match s.drop (4 + ws.length) with
      | q :: s₂ =>
        if isQuote q then
          let run := s₂.takeWhile fun c => !isQuote c
          let parsed : Option (List Char × Bool) :=
            if run.length ≥ 5 && strSuf ".css".data run then some (run, false)
            else if run.length ≥ 9 && strSuf ".css?url".data run then
              some (run.take (run.length - 4), true)
            else none
          match parsed with
          | none => none
          | some (cssPath, urlParam) =>
            match s₂.drop run.length with
            | q₂ :: _ =>
              if isQuote q₂ then
                let preLen := 4 + ws.length + 1
                let matchLen := preLen + run.length + 1
                let repl :=
                  if hasSub "/api/projects/".data cssPath then s.take matchLen
                  else
                    let absolutePath :=
                      if strPre "./".data cssPath || strPre "../".data cssPath then
                        urlResolvePathname cssPath (moduleDirOf modPath)
                      else cssPath
                    s.take preLen ++ (proxyPre id ++ encodeURIComponent absolutePath) ++
                      (if urlParam then "?url".data else []) ++ [q₂]
                some (repl, matchLen - 1)
              else none
            | [] => none
        else none
      | [] => none
    else none
  else none

/-- Matcher of the generic absolute-import rewrite

    /(from\s+["']|import\s*\(\s*["']|import\s+["']|require\s*\(\s*["']|export\s+\*\s+from\s+["'])(\/[^"']+)(["'])/g

whose callback skips already-proxied specifiers. -/
def mGeneric (id : String) (s : List Char) : Option (List Char × Nat) :=
  let quoteAt (l : List Char) (base : Nat) : Option Nat :=
    match l with
    | q :: _ => if isQuote q then some (base + 1) else none
    | [] => none
  let preLen : Option Nat :=
    if strPre "from".data s then
      let ws := (s.drop 4).takeWhile jsWs
      if ws.length ≥ 1 then quoteAt (s.drop (4 + ws.length)) (4 + ws.length) else none
    else if strPre "import".data s then
      let ws := (s.drop 6).takeWhile jsWs
      match s.drop (6 + ws.length) with
      | '(' :: rest =>
        let ws₂ := rest.takeWhile jsWs
        quoteAt (rest.drop ws₂.length) (6 + ws.length + 1 + ws₂.length)
      | _ =>
        if ws.length ≥ 1 then quoteAt (s.drop (6 + ws.length)) (6 + ws.length) else none
    else if strPre "require".data s then
      let ws := (s.drop 7).takeWhile jsWs
      match s.drop (7 + ws.length) with
      | '(' :: rest =>
        let ws₂ := rest.takeWhile jsWs
        quoteAt (rest.drop ws₂.length) (7 + ws.length + 1 + ws₂.length)
      | _ => none
    else if strPre "export".data s then
      let ws := (s.drop 6).takeWhile jsWs
      if ws.length ≥ 1 then
        match s.drop (6 + ws.length) with
        | '*' :: rest =>
          let ws₂ := rest.takeWhile jsWs
          if ws₂.length ≥ 1 && strPre "from".data (rest.drop ws₂.length) then
            let afterFrom := (rest.drop ws₂.length).drop 4
            let ws₃ := afterFrom.takeWhile jsWs
            if ws₃.length ≥ 1 then
              quoteAt (afterFrom.drop ws₃.length)
                (6 + ws.length + 1 + ws₂.length + 4 + ws₃.length)
            else none
          else none
        | _ => none
      else none
    else none
  match preLen with
  | none => none
  | some p =>
    match s.drop p with
    | '/' :: s₂ =>
      let run := s₂.takeWhile fun c => !isQuote c
      if run.length ≥ 1 then
        match s₂.drop run.length with
        | q₂ :: _ =>
          if isQuote q₂ then
            let importPath := '/' :: run
            let matchLen := p + 1 + run.length + 1
            let repl :=
              if hasSub "/api/projects/".data importPath then s.take matchLen
              else s.take p ++ (proxyPre id ++ encodeURIComponent importPath) ++ [q₂]
            some (repl, matchLen - 1)
          else none
        | [] => none
      else none
    | _ => none

/-- The script rewriter of the proxy `GET` handler: the webpack runtime
patches (public path and query-preserving pathname), then either the `?url`
asset-export rewrite or the CSS-import rewrite, then — except for `?url`
modules — the generic absolute-import rewrite, in source order. -/
def scriptRewrite (id : String) (modPath js : List Char) : List Char :=
  let js₁ :=
    if hasSub "webpack".data modPath && dotJsQTest modPath &&
        hasSub "__webpack_require__.p".data js then
      scanRep mPathname (scanRep (mWebpackP id) js)
    else js
  let isViteUrlExport := hasSub "?url".data modPath
  let js₂ :=
    if isViteUrlExport then scanRep (mExportUrl id) js₁
    else scanRep (mCssImport id modPath) js₁
  if isViteUrlExport then js₂ else scanRep (mGeneric id) js₂

/-! ## The style rewriter -/
/-- Matcher of the CSS url rewrite

    /url\(\s*(['"]?)(?!http|data:|#)([^'")]+)\1\s*\)/gi

whose callback trims the target, absolutizes it, and emits
`url(<q><proxyPrefix><encoded path><q>)`. -/
def mStyle (id : String) (s : List Char) : Option (List Char × Nat) :=
  if ciPre "url(".data s then
    let s₁ := s.drop 4
    let ws₁ := s₁.takeWhile jsWs
    let s₂ := s₁.drop ws₁.length
    let qinfo : Option Char × List Char × Nat :=
      match s₂ with
      | c :: r => if isQuote c then (some c, r, 1) else (none, s₂, 0)
      | [] => (none, [], 0)
    let primary : Option (List Char × Nat) :=
      match qinfo with
      | (qopt, s₃, qLen) =>
        if ciPre "http".data s₃ || ciPre "data:".data s₃ || strPre "#".data s₃ then none
        else
          let run := s₃.takeWhile fun c => !(c == '\'' || c == '"' || c == ')')
          if run.length ≥ 1 then
            let s₄ := s₃.drop run.length
            let closed : Option Nat :=
              match qopt with
              | some q =>
                match s₄ with
                | c :: r =>
                  if c == q then
                    let ws₂ := r.takeWhile jsWs
                    match r.drop ws₂.length with
                    | ')' :: _ => some (1 + ws₂.length + 1)
                    | _ => none
                  else none
                | [] => none
              | none =>
                match s₄ with
                | ')' :: _ => some 1
                | _ => none
            match closed with
            | none => none
            | some closeLen =>
              let matchLen := 4 + ws₁.length + qLen + run.length + closeLen
              let cleanPath := jsTrim run
              let absolutePath :=
                if strPre "/".data cleanPath then cleanPath else '/' :: cleanPath
              let qList := match qopt with
                | some q => [q]
                | none => []
              some ("url(".data ++ qList ++
                  (proxyPre id ++ encodeURIComponent absolutePath) ++ qList ++ [')'],
                matchLen - 1)
          else none
    match primary with
    | some r => some r
    | none =>
      -- Backtracking of `\s*`: when the attempt with all whitespace consumed
      -- fails, the regex gives its last whitespace character back; the quote
      -- group is then empty and the lookahead sees whitespace (and passes),
      -- so the run is that character followed by the non-quote non-`)` span,
      -- matching exactly when `)` follows.
      if ws₁.length ≥ 1 then
        let run := s₂.takeWhile fun c => !(c == '\'' || c == '"' || c == ')')
        match s₂.drop run.length with
        | ')' :: _ =>
          let matchLen := 4 + ws₁.length + run.length + 1
          let cleanPath := jsTrim run
          let absolutePath :=
            if strPre "/".data cleanPath then cleanPath else '/' :: cleanPath
          some ("url(".data ++
              (proxyPre id ++ encodeURIComponent absolutePath) ++ [')'],
            matchLen - 1)
        | _ => none
      else none
  else none

/-- The style rewriter of the proxy `GET` handler. -/
def styleRewrite (id : String) (css : List Char) : List Char :=
  scanRep (mStyle id) css

/-! ## The proxy `GET` endpoint

The handler's network call is modelled by its outcome: the `fetch` (or the
relay's `proxyRequest`) either resolves to an upstream response, rejects
with the 30-second `AbortSignal.timeout` `AbortError`, rejects with a
`TypeError` whose message contains `Failed to fetch` (connection-level
failure of the runtime's fetch), or rejects with any other error, whose
message the outer catch reports. -/
/-- The upstream response visible to the handler. -/
structure Upstream where
  status : Nat
  statusText : String
  contentType : String
  body : String
  respHeaders : List (String × String)
deriving Repr

/-- Result of the awaited upstream call. -/
inductive FetchOutcome
  | ok (r : Upstream)
  | timeoutAbort
  | failedFetch
  | otherError (msg : String)
deriving Repr

/-- The HTTP response the handler returns. -/
structure HttpResp where
  status : Nat
  headersOut : List (String × String)
  body : String
deriving Repr

/-- Case-insensitive header `set` (the `Headers.set` of the passthrough
branch replaces an existing header regardless of case). -/
def setH (hs : List (String × String)) (k v : String) : List (String × String) :=
  if hs.any fun p => p.1.data.map Char.toLower == k.data.map Char.toLower then
    hs.map fun p =>
      if p.1.data.map Char.toLower == k.data.map Char.toLower then (p.1, v) else p
  else hs ++ [(k, v)]

/-- Test of `/chunk-[A-Z0-9]+\.js/i`. -/
def viteChunkName : List Char → Bool
  | [] => false
  | c :: cs =>
    (ciPre "chunk-".data (c :: cs) &&
      (let t := (c :: cs).drop 6
       let run := t.takeWhile fun ch => ch.isAlpha || ch.isDigit
       run.length ≥ 1 && strPre ".js".data (t.drop run.length))) ||
    viteChunkName cs

/-- `path.includes('/node_modules/.vite/') || /chunk-[A-Z0-9]+\.js/i.test(path)`. -/
def isViteChunk (path : List Char) : Bool :=
  hasSub "/node_modules/.vite/".data path || viteChunkName path

/-- The content-type/path test of the script branch. -/
def jsBranch (contentType path : List Char) : Bool :=
  hasSub "javascript".data contentType || hasSub "typescript".data contentType ||
  hasSub "/@vite/".data path || hasSub "/@react-refresh".data path ||
  strSuf ".tsx".data path || strSuf ".ts".data path || strSuf ".jsx".data path ||
  strSuf ".mjs".data path ||
  (strSuf ".css".data path && !hasSub "?direct".data path)

/-- `response.ok`: status in the 2xx range. -/
def respOk (status : Nat) : Bool :=
  200 ≤ status && status ≤ 299

/-- The cache-control policy of the script and style branches. -/
def cacheControlOf (vite : Bool) : String :=
  if vite then "public, max-age=600, immutable" else "no-cache"

/-- The proxy `GET` handler, from the project lookup to the returned
response.  `lookup` is the result of the `projects` query, `rawPath` the
decoded `path` query parameter (already defaulted to `/`), `outcome` the
awaited network call, and `sel` the opaque selection script body. -/
def handleGET (env : Env) (id : String) (lookup : Option Proj)
    (host rawPath : String) (outcome : FetchOutcome) (sel : String) : HttpResp :=
  let path : List Char := normalizeNextPath rawPath.data
  match lookup with
  | none => ⟨404, [], "Project not found"⟩
  | some proj =>
    match resolveTransport env proj (frontendIsLocal host) with
    | .notRunning => ⟨503, [], "Dev server not running"⟩
    | .pendingWs =>
      ⟨202, [("X-Tunnel-Status", "pending"), ("X-Proxy-Mode", "websocket")],
        "Waiting for runner connection..."⟩
    | .pendingTunnel =>
      ⟨202, [("X-Tunnel-Status", "pending")], "Waiting for tunnel..."⟩
    | .route _ =>
      match outcome with
      | .timeoutAbort =>
        ⟨504, [], "Request timeout: Failed to fetch " ++ (⟨path⟩ : String)⟩
      | .failedFetch =>
        ⟨404, [("Content-Type", "text/plain"), ("Access-Control-Allow-Origin", "*")],
          "Failed to fetch module: " ++ (⟨path⟩ : String) ++
            ". The module may not exist or the dev server may be restarting."⟩
      | .otherError msg =>
        ⟨500, [], "Proxy failed: " ++ msg⟩
      | .ok r =>
        if !respOk r.status then
          ⟨r.status, [("Access-Control-Allow-Origin", "*")],
            "Upstream error: " ++ toString r.status ++ " " ++ r.statusText⟩
        else
          let vite := isViteChunk path
          if jsIncludes r.contentType "text/html" then
            ⟨200, [("Content-Type", "text/html"), ("Cache-Control", "no-cache")],
              ⟨htmlRewrite id sel r.body.data⟩⟩
          else if jsBranch r.contentType.data path then
            ⟨200, [("Content-Type", r.contentType),
                ("Cache-Control", cacheControlOf vite),
                ("Access-Control-Allow-Origin", "*")],
              ⟨scriptRewrite id path r.body.data⟩⟩
          else if jsIncludes r.contentType "text/css" ||
              jsIncludes r.contentType "stylesheet" then
            ⟨200, [("Content-Type", r.contentType),
                ("Cache-Control", cacheControlOf vite),
                ("Access-Control-Allow-Origin", "*")],
              ⟨styleRewrite id r.body.data⟩⟩
          else
            let hs := setH (setH (setH r.respHeaders
              "Access-Control-Allow-Origin" "*")
              "Access-Control-Allow-Methods" "GET, POST, OPTIONS")
              "Access-Control-Allow-Headers" "*"
            let hs :=
              if strPre "/_serverFn/".data path || strPre "/api/".data path then
                setH hs "Cache-Control" "no-cache, no-store, must-revalidate"
              else hs
            ⟨200, hs, r.body⟩

/-! ## The spec's transport-decision table

`TransportDecision` and `resolveSpec` follow the words of the spec's
decision table (§4.2), for comparison with the handler's decision chain. -/
/-- The spec's `TransportDecision`, plus the not-running error. -/
inductive Decision
  | error
  | directLocal
  | relayChannel
  | tunnelRemote
  | pending
deriving DecidableEq, Repr

/-- Forget the payloads and the pending flavour of the handler's outcome. -/
def decisionOf : ResolveOutcome → Decision
  | .notRunning => .error
  | .pendingWs => .pending
  | .pendingTunnel => .pending
  | .route (.directLocal _) => .directLocal
  | .route (.wsProxy _) => .relayChannel
  | .route (.tunnel _) => .tunnelRemote

/-- The decision table in the spec's words (first match wins), amended with
the recorded-port condition the code enforces: not running or no recorded
port is the error; local origin is `DirectLocal`; a confirmed-attached relay
peer is `RelayChannel`; a present tunnel URL is `TunnelRemote`; otherwise
`Pending`. -/
def resolveSpec (running portRecorded isLocal relay tunnelPresent : Bool) : Decision :=
  if !running || !portRecorded then .error
  else if isLocal then .directLocal
  else if relay then .relayChannel
  else if tunnelPresent then .tunnelRemote
  else .pending

/-- An environment with the websocket-proxy feature off and no runner
attached. -/
def envOff : Env := ⟨false, fun _ => false⟩

/-- An environment with the websocket-proxy feature on and every runner
reported connected. -/
def envOn : Env := ⟨true, fun _ => true⟩

/-- A session whose dev server is recorded running but with no recorded
port. -/
def projRunNoPort : Proj := ⟨.running, none, none, none⟩

/-- A healthy running session with a recorded port and no remote routes. -/
def projOk : Proj := ⟨.running, some 3000, none, none⟩

/-! ## Definite-failure predicates

For the bootstrap-ordering theorem the passes must be shown to leave the
text before and including the injected block untouched.  `df*` below are
decidable sufficient conditions for a matcher to fail at a position
regardless of what follows (`ciMismatch` exhibits a mismatch within the
inspected text itself). -/
/-- Definite failure of the attribute matcher: both `src=` and `href=`
mismatch within `s`. -/
def dfAttr (s : List Char) : Bool :=
  ciMismatch "src=".data s && ciMismatch "href=".data s

/-- Definite failure of the module-script matcher: `<script` mismatches
within `s`, or it matches but is followed (within `s`) by a non-whitespace
character, so `\s+` fails. -/
def dfModS (s : List Char) : Bool :=
  ciMismatch "<script".data s ||
    (ciPre "<script".data s &&
      (match s.drop 7 with
       | c :: _ => !jsWs c
       | [] => false))

/-- Definite failure of the RSC matcher: its leading literal mismatches
within `s`. -/
def dfRSC (s : List Char) : Bool :=
  ciMismatch "<script>self.__next_f.push([1,".data s

/-- `df` holds at every suffix of `s` (every scan position inside `s`). -/
def allSuff (df : List Char → Bool) : List Char → Bool
  | [] => true
  | c :: cs => if df (c :: cs) then allSuff df cs else false

/-- The block the HTML rewriter injects in place of `<head>`: the literal
`<head>` followed by the indented bootstrap snippet. -/
def injectedBlock : List Char :=
  "<head>\n    ".data ++ earlyScripts "p1"

/-- Passes 2-5 of the HTML rewriter (everything after head injection). -/
def tailRewrite (id sel : String) (html : List Char) : List Char :=
  htmlPass5 sel (htmlPass4 id (htmlPass3 id (htmlPass2 id html)))

/-- A case-insensitive occurrence of `pat` at character offset `j` of `s`. -/
def occursAtCI (pat s : List Char) (j : Nat) : Prop :=
  ciPre pat (s.drop j) = true

/-- `df` at the first `n` positions of `s` (each position sees the full
remaining suffix, so definiteness is not lost at a chunk boundary). -/
def allSuffN (df : List Char → Bool) : Nat → List Char → Bool
  | 0, _ => true
  | _ + 1, [] => true
  | n + 1, c :: cs => if df (c :: cs) then allSuffN df n cs else false

/-! ## Lemmas and claim theorems -/

theorem scanF_cons_none (m : List Char → Option (List Char × Nat)) (f : Nat)
    (c : Char) (cs : List Char) (h : m (c :: cs) = none) :
    scanF m (f + 1) (c :: cs) = c :: scanF m f cs := by
  simp only [scanF, h]

theorem scanF_cons_some (m : List Char → Option (List Char × Nat)) (f : Nat)
    (c : Char) (cs r : List Char) (k : Nat) (h : m (c :: cs) = some (r, k)) :
    scanF m (f + 1) (c :: cs) = r ++ scanF m f (cs.drop k) := by
  simp only [scanF, h]

theorem scanF_fuel (m : List Char → Option (List Char × Nat)) :
    ∀ (f₁ : Nat) (s : List Char) (f₂ : Nat), s.length ≤ f₁ → s.length ≤ f₂ →
      scanF m f₁ s = scanF m f₂ s := by
  intro f₁
  induction f₁ with
  | zero =>
    intro s f₂ h₁ _
    cases s with
    | nil => cases f₂ <;> rfl
    | cons c cs => simp at h₁
  | succ f ih =>
    intro s f₂ h₁ h₂
    cases s with
    | nil => cases f₂ <;> rfl
    | cons c cs =>
      cases f₂ with
      | zero => simp at h₂
      | succ g =>
        have hcc : (c :: cs).length = cs.length + 1 := List.length_cons c cs
        rw [hcc] at h₁ h₂
        cases hm : m (c :: cs) with
        | none =>
          rw [scanF_cons_none m f c cs hm, scanF_cons_none m g c cs hm,
            ih cs g (by omega) (by omega)]
        | some rk =>
          obtain ⟨r, k⟩ := rk
          have hdl : (cs.drop k).length = cs.length - k := List.length_drop k cs
          rw [scanF_cons_some m f c cs r k hm, scanF_cons_some m g c cs r k hm,
            ih (cs.drop k) g (by omega) (by omega)]

/-- If the matcher fails at every position inside `X` (with the tail of `X`
followed by `B` as continuation), the scan copies `X` and proceeds on `B`. -/
theorem scanF_append_skip (m : List Char → Option (List Char × Nat)) :
    ∀ (X B : List Char) (f : Nat), X.length + B.length ≤ f →
      (∀ i, i < X.length → m (X.drop i ++ B) = none) →
      scanF m f (X ++ B) = X ++ scanF m (f - X.length) B := by
  intro X
  induction X with
  | nil =>
    intro B f _ _
    simp
  | cons x xs ih =>
    intro B f hf h
    cases f with
    | zero => simp at hf
    | succ g =>
      have h0 : m (x :: (xs ++ B)) = none := by
        have := h 0 (by simp)
        simpa using this
      have hg : xs.length + B.length ≤ g := by
        simp at hf; omega
      have h' : ∀ i, i < xs.length → m (xs.drop i ++ B) = none := by
        intro i hi
        have := h (i + 1) (by simp; omega)
        simpa using this
      rw [List.cons_append, scanF_cons_none m g x (xs ++ B) h0, ih B g hg h']
      simp [List.cons_append, Nat.succ_sub_succ]

/-- `scanRep` over a concatenation whose left part never matches. -/
theorem scanRep_append_skip (m : List Char → Option (List Char × Nat))
    (X B : List Char)
    (h : ∀ i, i < X.length → m (X.drop i ++ B) = none) :
    scanRep m (X ++ B) = X ++ scanRep m B := by
  unfold scanRep
  rw [scanF_append_skip m X B (X ++ B).length (by simp) h]
  congr 1
  apply scanF_fuel
  · simp
  · exact Nat.le_refl _

/-- `repFirstCI` over a concatenation whose left part has no occurrence. -/
theorem repFirstCI_append_skip (pat repl : List Char) :
    ∀ (X B : List Char), (∀ i, i < X.length → ciPre pat (X.drop i ++ B) = false) →
      repFirstCI pat repl (X ++ B) = X ++ repFirstCI pat repl B := by
  intro X
  induction X with
  | nil => intro B _; simp
  | cons x xs ih =>
    intro B h
    have h0 : ciPre pat (x :: (xs ++ B)) = false := by
      have := h 0 (by simp)
      simpa using this
    rw [List.cons_append]
    show (if ciPre pat (x :: (xs ++ B)) = true then
        repl ++ (x :: (xs ++ B)).drop pat.length
      else x :: repFirstCI pat repl (xs ++ B)) = x :: (xs ++ repFirstCI pat repl B)
    rw [h0]
    simp only [Bool.false_eq_true, if_false]
    rw [ih B (fun i hi => by
      have := h (i + 1) (by simp; omega)
      simpa using this)]

theorem ciMismatch_sound :
    ∀ (pat s : List Char), ciMismatch pat s = true →
      ∀ t, ciPre pat (s ++ t) = false := by
  intro pat
  induction pat with
  | nil => intro s h; simp [ciMismatch] at h
  | cons p ps ih =>
    intro s h t
    cases s with
    | nil => simp [ciMismatch] at h
    | cons c cs =>
      simp only [ciMismatch, Bool.or_eq_true, bne_iff_ne, ne_eq] at h
      rw [List.cons_append]
      show (p.toLower == c.toLower && ciPre ps (cs ++ t)) = false
      rcases h with h | h
      · simp [h]
      · simp [ih cs h t]

theorem csMismatch_sound :
    ∀ (pat s : List Char), csMismatch pat s = true →
      ∀ t, strPre pat (s ++ t) = false := by
  intro pat
  induction pat with
  | nil => intro s h; simp [csMismatch] at h
  | cons p ps ih =>
    intro s h t
    cases s with
    | nil => simp [csMismatch] at h
    | cons c cs =>
      simp only [csMismatch, Bool.or_eq_true, bne_iff_ne, ne_eq] at h
      rw [List.cons_append]
      show (p == c && strPre ps (cs ++ t)) = false
      rcases h with h | h
      · simp [h]
      · simp [ih cs h t]

/-! ## Claim theorems -/
theorem ciPre_append_true :
    ∀ (pat s t : List Char), ciPre pat s = true → ciPre pat (s ++ t) = true := by
  intro pat
  induction pat with
  | nil => intro s t _; rfl
  | cons p ps ih =>
    intro s t h
    cases s with
    | nil => simp [ciPre] at h
    | cons c cs =>
      simp only [ciPre, Bool.and_eq_true] at h
      simp only [List.cons_append, ciPre, Bool.and_eq_true]
      exact ⟨h.1, ih cs t h.2⟩

theorem ciPre_self_append (pat t : List Char) : ciPre pat (pat ++ t) = true := by
  induction pat with
  | nil => rfl
  | cons p ps ih => simp [ciPre, ih]

theorem ciMismatch_append :
    ∀ (pat s t : List Char), ciMismatch pat s = true → ciMismatch pat (s ++ t) = true := by
  intro pat
  induction pat with
  | nil => intro s t h; simp [ciMismatch] at h
  | cons p ps ih =>
    intro s t h
    cases s with
    | nil => simp [ciMismatch] at h
    | cons c cs =>
      simp only [ciMismatch, Bool.or_eq_true] at h
      simp only [List.cons_append, ciMismatch, Bool.or_eq_true]
      rcases h with h | h
      · exact Or.inl h
      · exact Or.inr (ih cs t h)

/-- A definite attribute mismatch survives extension on the right. -/
theorem dfAttr_append (s t : List Char) (h : dfAttr s = true) : dfAttr (s ++ t) = true := by
  simp only [dfAttr, Bool.and_eq_true] at h ⊢
  exact ⟨ciMismatch_append _ _ _ h.1, ciMismatch_append _ _ _ h.2⟩

/-- A definite module-script mismatch survives extension on the right. -/
theorem dfModS_append (s t : List Char) (h : dfModS s = true) : dfModS (s ++ t) = true := by
  simp only [dfModS, Bool.or_eq_true, Bool.and_eq_true] at h ⊢
  rcases h with h | ⟨h₁, h₂⟩
  · exact Or.inl (ciMismatch_append _ _ _ h)
  · refine Or.inr ⟨ciPre_append_true _ _ _ h₁, ?_⟩
    cases hd : s.drop 7 with
    | nil => rw [hd] at h₂; simp at h₂
    | cons c r =>
      rw [hd] at h₂
      have hlen : 7 ≤ s.length := by
        have := congrArg List.length hd
        simp [List.length_drop] at this
        omega
      have : (s ++ t).drop 7 = s.drop 7 ++ t := by
        rw [List.drop_append_eq_append_drop]
        have : 7 - s.length = 0 := by omega
        rw [this, List.drop_zero]
      rw [this, hd]
      simpa using h₂

/-- A definite RSC mismatch survives extension on the right. -/
theorem dfRSC_append (s t : List Char) (h : dfRSC s = true) : dfRSC (s ++ t) = true :=
  ciMismatch_append _ _ _ h

/-- Definite failure of the attribute matcher is sound. -/
theorem dfAttr_sound (s : List Char) (h : dfAttr s = true) (id : String) (t : List Char) :
    mAttr id (s ++ t) = none := by
  simp only [dfAttr, Bool.and_eq_true] at h
  simp [mAttr, ciMismatch_sound _ _ h.1 t, ciMismatch_sound _ _ h.2 t]

/-- Definite failure of the module-script matcher is sound. -/
theorem dfModS_sound (s : List Char) (h : dfModS s = true) (id : String) (t : List Char) :
    mModS id (s ++ t) = none := by
  simp only [dfModS, Bool.or_eq_true, Bool.and_eq_true] at h
  rcases h with h | ⟨h₁, h₂⟩
  · simp [mModS, ciMismatch_sound _ _ h t]
  · cases hd : s.drop 7 with
    | nil => rw [hd] at h₂; simp at h₂
    | cons c r =>
      rw [hd] at h₂
      have hlen : 7 ≤ s.length := by
        have := congrArg List.length hd
        simp [List.length_drop] at this
        omega
      have hdrop : (s ++ t).drop 7 = c :: (r ++ t) := by
        rw [List.drop_append_eq_append_drop]
        have h0 : 7 - s.length = 0 := by omega
        rw [h0, List.drop_zero, hd]
        rfl
      have hws : jsWs c = false := by simpa using h₂
      simp [mModS, ciPre_append_true _ _ _ h₁, hdrop, List.takeWhile, hws]

/-- Definite failure of the RSC matcher is sound. -/
theorem dfRSC_sound (s : List Char) (h : dfRSC s = true) (id : String) (t : List Char) :
    mRSC id (s ++ t) = none := by
  simp [mRSC, ciMismatch_sound _ _ h t]

/-- `allSuff df s` gives `df` at every suffix. -/
theorem allSuff_spec (df : List Char → Bool) :
    ∀ (s : List Char), allSuff df s = true → ∀ i, i < s.length → df (s.drop i) = true := by
  intro s
  induction s with
  | nil => intro _ i hi; simp at hi
  | cons c cs ih =>
    intro h i hi
    have hsplit : df (c :: cs) = true ∧ allSuff df cs = true := by
      by_cases hc : df (c :: cs) = true
      · refine ⟨hc, ?_⟩
        simpa [allSuff, hc] using h
      · rw [allSuff] at h
        simp [hc] at h
    cases i with
    | zero => simpa using hsplit.1
    | succ j =>
      have hj : j < cs.length := by simpa using hi
      simpa using ih hsplit.2 j hj

/-- Two `allSuff` facts concatenate when `df` survives right extension. -/
theorem allSuff_append (df : List Char → Bool)
    (hext : ∀ s t, df s = true → df (s ++ t) = true) :
    ∀ (X Y : List Char), allSuff df X = true → allSuff df Y = true →
      allSuff df (X ++ Y) = true := by
  intro X
  induction X with
  | nil => intro Y _ hY; simpa using hY
  | cons x xs ih =>
    intro Y hX hY
    have hsplit : df (x :: xs) = true ∧ allSuff df xs = true := by
      by_cases hc : df (x :: xs) = true
      · refine ⟨hc, ?_⟩
        simpa [allSuff, hc] using hX
      · rw [allSuff] at hX
        simp [hc] at hX
    have hhead : df (x :: (xs ++ Y)) = true := by
      have := hext (x :: xs) Y hsplit.1
      simpa using this
    simp only [List.cons_append, allSuff, List.append_eq, hhead, if_true]
    exact ih Y hsplit.2 hY

/-- Glue an `allSuff` fact from a take/drop split. -/
theorem allSuff_glue (df : List Char → Bool)
    (hext : ∀ s t, df s = true → df (s ++ t) = true)
    (l : List Char) (n : Nat)
    (h₁ : allSuff df (l.take n) = true) (h₂ : allSuff df (l.drop n) = true) :
    allSuff df l = true := by
  have := allSuff_append df hext (l.take n) (l.drop n) h₁ h₂
  rwa [List.take_append_drop] at this

/-- Split an `allSuff` obligation at position `n`. -/
theorem allSuffN_split (df : List Char → Bool) :
    ∀ (n : Nat) (s : List Char), allSuffN df n s = true →
      allSuff df (s.drop n) = true → allSuff df s = true := by
  intro n
  induction n with
  | zero => intro s _ h; simpa using h
  | succ k ih =>
    intro s h₁ h₂
    cases s with
    | nil => rfl
    | cons c cs =>
      have hsplit : df (c :: cs) = true ∧ allSuffN df k cs = true := by
        by_cases hc : df (c :: cs) = true
        · refine ⟨hc, ?_⟩
          simpa [allSuffN, hc] using h₁
        · rw [allSuffN] at h₁
          simp [hc] at h₁
      rw [allSuff]
      simp only [hsplit.1, if_true]
      exact ih cs hsplit.2 (by simpa using h₂)

/-- Chain one 700-position chunk. -/
theorem allSuff_step (df : List Char → Bool) (l : List Char) (a b : Nat)
    (hab : a + 700 = b)
    (h₁ : allSuffN df 700 (l.drop a) = true) (h₂ : allSuff df (l.drop b) = true) :
    allSuff df (l.drop a) = true := by
  apply allSuffN_split df 700 _ h₁
  rw [List.drop_drop, hab]
  exact h₂

/-- The attribute matcher definitely fails everywhere inside the injected
block. -/
theorem allSuff_dfAttr_injected : allSuff dfAttr injectedBlock = true := by
  have c8 : allSuff dfAttr (injectedBlock.drop 5600) = true := by rfl
  have c7 := allSuff_step dfAttr injectedBlock 4900 5600 (by norm_num) (by rfl) c8
  have c6 := allSuff_step dfAttr injectedBlock 4200 4900 (by norm_num) (by rfl) c7
  have c5 := allSuff_step dfAttr injectedBlock 3500 4200 (by norm_num) (by rfl) c6
  have c4 := allSuff_step dfAttr injectedBlock 2800 3500 (by norm_num) (by rfl) c5
  have c3 := allSuff_step dfAttr injectedBlock 2100 2800 (by norm_num) (by rfl) c4
  have c2 := allSuff_step dfAttr injectedBlock 1400 2100 (by norm_num) (by rfl) c3
  have c1 := allSuff_step dfAttr injectedBlock 700 1400 (by norm_num) (by rfl) c2
  have c0 := allSuff_step dfAttr injectedBlock 0 700 (by norm_num) (by rfl) c1
  simpa using c0

/-- The module-script matcher definitely fails everywhere inside the
injected block. -/
theorem allSuff_dfModS_injected : allSuff dfModS injectedBlock = true := by
  have c8 : allSuff dfModS (injectedBlock.drop 5600) = true := by rfl
  have c7 := allSuff_step dfModS injectedBlock 4900 5600 (by norm_num) (by rfl) c8
  have c6 := allSuff_step dfModS injectedBlock 4200 4900 (by norm_num) (by rfl) c7
  have c5 := allSuff_step dfModS injectedBlock 3500 4200 (by norm_num) (by rfl) c6
  have c4 := allSuff_step dfModS injectedBlock 2800 3500 (by norm_num) (by rfl) c5
  have c3 := allSuff_step dfModS injectedBlock 2100 2800 (by norm_num) (by rfl) c4
  have c2 := allSuff_step dfModS injectedBlock 1400 2100 (by norm_num) (by rfl) c3
  have c1 := allSuff_step dfModS injectedBlock 700 1400 (by norm_num) (by rfl) c2
  have c0 := allSuff_step dfModS injectedBlock 0 700 (by norm_num) (by rfl) c1
  simpa using c0

/-- The RSC matcher definitely fails everywhere inside the injected block. -/
theorem allSuff_dfRSC_injected : allSuff dfRSC injectedBlock = true := by
  have c8 : allSuff dfRSC (injectedBlock.drop 5600) = true := by rfl
  have c7 := allSuff_step dfRSC injectedBlock 4900 5600 (by norm_num) (by rfl) c8
  have c6 := allSuff_step dfRSC injectedBlock 4200 4900 (by norm_num) (by rfl) c7
  have c5 := allSuff_step dfRSC injectedBlock 3500 4200 (by norm_num) (by rfl) c6
  have c4 := allSuff_step dfRSC injectedBlock 2800 3500 (by norm_num) (by rfl) c5
  have c3 := allSuff_step dfRSC injectedBlock 2100 2800 (by norm_num) (by rfl) c4
  have c2 := allSuff_step dfRSC injectedBlock 1400 2100 (by norm_num) (by rfl) c3
  have c1 := allSuff_step dfRSC injectedBlock 700 1400 (by norm_num) (by rfl) c2
  have c0 := allSuff_step dfRSC injectedBlock 0 700 (by norm_num) (by rfl) c1
  simpa using c0

/-- No `</body>` occurrence starts inside the injected block. -/
theorem allSuff_body_injected :
    allSuff (ciMismatch "</body>".data) injectedBlock = true := by
  have c8 : allSuff (ciMismatch "</body>".data) (injectedBlock.drop 5600) = true := by
    rfl
  have c7 := allSuff_step (ciMismatch "</body>".data) injectedBlock 4900 5600
    (by norm_num) (by rfl) c8
  have c6 := allSuff_step (ciMismatch "</body>".data) injectedBlock 4200 4900
    (by norm_num) (by rfl) c7
  have c5 := allSuff_step (ciMismatch "</body>".data) injectedBlock 3500 4200
    (by norm_num) (by rfl) c6
  have c4 := allSuff_step (ciMismatch "</body>".data) injectedBlock 2800 3500
    (by norm_num) (by rfl) c5
  have c3 := allSuff_step (ciMismatch "</body>".data) injectedBlock 2100 2800
    (by norm_num) (by rfl) c4
  have c2 := allSuff_step (ciMismatch "</body>".data) injectedBlock 1400 2100
    (by norm_num) (by rfl) c3
  have c1 := allSuff_step (ciMismatch "</body>".data) injectedBlock 700 1400
    (by norm_num) (by rfl) c2
  have c0 := allSuff_step (ciMismatch "</body>".data) injectedBlock 0 700
    (by norm_num) (by rfl) c1
  simpa using c0

/-- No `<script` occurrence starts inside the injected `<head>` header. -/
theorem allSuff_script_hdr :
    allSuff (ciMismatch "<script".data) "<head>\n    ".data = true := by rfl

/-- Weaken an `allSuff` fact along a pointwise implication. -/
theorem allSuff_mono (f g : List Char → Bool)
    (h : ∀ s, f s = true → g s = true) :
    ∀ (s : List Char), allSuff f s = true → allSuff g s = true := by
  intro s
  induction s with
  | nil => intro _; rfl
  | cons c cs ih =>
    intro hf
    have hsplit : f (c :: cs) = true ∧ allSuff f cs = true := by
      by_cases hc : f (c :: cs) = true
      · refine ⟨hc, ?_⟩
        simpa [allSuff, hc] using hf
      · rw [allSuff] at hf
        simp [hc] at hf
    rw [allSuff]
    simp only [h _ hsplit.1, if_true]
    exact ih hsplit.2

/-- A mismatch against a pattern is a mismatch against any extension of the
pattern. -/
theorem ciMismatch_pat_extend :
    ∀ (pat ext s : List Char), ciMismatch pat s = true →
      ciMismatch (pat ++ ext) s = true := by
  intro pat
  induction pat with
  | nil => intro ext s h; simp [ciMismatch] at h
  | cons p ps ih =>
    intro ext s h
    cases s with
    | nil => simp [ciMismatch] at h
    | cons c cs =>
      simp only [ciMismatch, Bool.or_eq_true] at h
      simp only [List.cons_append, ciMismatch, Bool.or_eq_true]
      rcases h with h | h
      · exact Or.inl h
      · exact Or.inr (ih ext cs h)

/-- A `<script` mismatch is a definite module-script failure. -/
theorem dfModS_of_script (s : List Char)
    (h : ciMismatch "<script".data s = true) : dfModS s = true := by
  simp [dfModS, h]

/-- A `<script` mismatch is a definite RSC failure. -/
theorem dfRSC_of_script (s : List Char)
    (h : ciMismatch "<script".data s = true) : dfRSC s = true := by
  have : ("<script>self.__next_f.push([1,".data : List Char) =
      "<script".data ++ ">self.__next_f.push([1,".data := by decide
  unfold dfRSC
  rw [this]
  exact ciMismatch_pat_extend _ _ s h

/-- Scan over a concatenation whose left part is definitely match-free. -/
theorem scanRep_skip_of_allSuff (m : List Char → Option (List Char × Nat))
    (df : List Char → Bool)
    (sound : ∀ s, df s = true → ∀ t, m (s ++ t) = none)
    (X B : List Char) (hX : allSuff df X = true) :
    scanRep m (X ++ B) = X ++ scanRep m B :=
  scanRep_append_skip m X B fun i hi => sound _ (allSuff_spec df X hX i hi) B

/-- `ciHasSub` over a concatenation whose left part is occurrence-free. -/
theorem ciHasSub_skip (pat : List Char) :
    ∀ (X B : List Char), allSuff (ciMismatch pat) X = true →
      ciHasSub pat (X ++ B) = ciHasSub pat B := by
  intro X
  induction X with
  | nil => intro B _; rfl
  | cons x xs ih =>
    intro B hX
    have hsplit : ciMismatch pat (x :: xs) = true ∧
        allSuff (ciMismatch pat) xs = true := by
      by_cases hc : ciMismatch pat (x :: xs) = true
      · refine ⟨hc, ?_⟩
        simpa [allSuff, hc] using hX
      · rw [allSuff] at hX
        simp [hc] at hX
    have hpre : ciPre pat (x :: (xs ++ B)) = false := by
      have := ciMismatch_sound pat (x :: xs) hsplit.1 B
      simpa using this
    rw [List.cons_append]
    show (ciPre pat (x :: (xs ++ B)) || ciHasSub pat (xs ++ B)) = ciHasSub pat B
    rw [hpre, ih B hsplit.2]
    simp

/-- `ciHasSub` finds the pattern at the front. -/
theorem ciHasSub_self (pat : List Char) (hne : pat ≠ []) (B : List Char) :
    ciHasSub pat (pat ++ B) = true := by
  cases pat with
  | nil => exact absurd rfl hne
  | cons p ps =>
    rw [List.cons_append]
    show (ciPre (p :: ps) (p :: (ps ++ B)) || ciHasSub (p :: ps) (ps ++ B)) = true
    have := ciPre_self_append (p :: ps) B
    rw [List.cons_append] at this
    rw [this]
    simp

/-- `repFirstCI` replaces the pattern standing at the front. -/
theorem repFirstCI_self (pat repl : List Char) (hne : pat ≠ []) (B : List Char) :
    repFirstCI pat repl (pat ++ B) = repl ++ B := by
  cases pat with
  | nil => exact absurd rfl hne
  | cons p ps =>
    rw [List.cons_append]
    show (if ciPre (p :: ps) (p :: (ps ++ B)) = true then
        repl ++ (p :: (ps ++ B)).drop (p :: ps).length
      else p :: repFirstCI (p :: ps) repl (ps ++ B)) = repl ++ B
    have hp := ciPre_self_append (p :: ps) B
    rw [List.cons_append] at hp
    rw [hp]
    simp only [if_true, List.length_cons, List.drop_succ_cons]
    rw [List.drop_left]

/-- Head injection on a document of the form `A ++ <head> ++ B` with a
clean prefix `A`. -/
theorem htmlPass1_inject (A B : List Char)
    (hA : allSuff (ciMismatch "<head>".data) A = true) :
    htmlPass1 "p1" (A ++ ("<head>".data ++ B)) = A ++ (injectedBlock ++ B) := by
  unfold htmlPass1
  have hc : ciHasSub "<head>".data (A ++ ("<head>".data ++ B)) = true := by
    rw [ciHasSub_skip _ A _ hA]
    exact ciHasSub_self _ (by decide) B
  rw [hc]
  simp only [if_true]
  rw [repFirstCI_append_skip _ _ A _ (fun i hi => by
    have := ciMismatch_sound _ _ (allSuff_spec _ A hA i hi) ("<head>".data ++ B)
    simpa using this)]
  rw [repFirstCI_self _ _ (by decide) B]
  rfl

/-- Selection-script append over a concatenation whose left part has no
`</body>` occurrence. -/
theorem htmlPass5_skip (sel : String) (X T : List Char)
    (hX : allSuff (ciMismatch "</body>".data) X = true) :
    htmlPass5 sel (X ++ T) = X ++ htmlPass5 sel T := by
  unfold htmlPass5
  rw [ciHasSub_skip _ X T hX]
  by_cases hb : ciHasSub "</body>".data T = true
  · rw [hb]
    simp only [if_true]
    exact repFirstCI_append_skip _ _ X T fun i hi => by
      have := ciMismatch_sound _ _ (allSuff_spec _ X hX i hi) T
      simpa using this
  · rw [Bool.not_eq_true] at hb
    rw [hb]
    simp [List.append_assoc]

/-- The three scan passes over a concatenation whose left part is the
clean prefix `A` followed by the injected block. -/
theorem tail_passes_skip (A B : List Char) (sel : String)
    (hAttr : allSuff dfAttr A = true)
    (hBody : allSuff (ciMismatch "</body>".data) A = true)
    (hScript : allSuff (ciMismatch "<script".data) A = true) :
    tailRewrite "p1" sel (A ++ (injectedBlock ++ B)) =
      A ++ (injectedBlock ++ tailRewrite "p1" sel B) := by
  have hModA : allSuff dfModS A = true :=
    allSuff_mono _ _ dfModS_of_script A hScript
  have hRscA : allSuff dfRSC A = true :=
    allSuff_mono _ _ dfRSC_of_script A hScript
  unfold tailRewrite htmlPass2 htmlPass3 htmlPass4
  rw [scanRep_skip_of_allSuff (mAttr "p1") dfAttr
      (fun s hs t => dfAttr_sound s hs "p1" t) A _ hAttr,
    scanRep_skip_of_allSuff (mAttr "p1") dfAttr
      (fun s hs t => dfAttr_sound s hs "p1" t) injectedBlock B
      allSuff_dfAttr_injected,
    scanRep_skip_of_allSuff (mModS "p1") dfModS
      (fun s hs t => dfModS_sound s hs "p1" t) A _ hModA,
    scanRep_skip_of_allSuff (mModS "p1") dfModS
      (fun s hs t => dfModS_sound s hs "p1" t) injectedBlock _
      allSuff_dfModS_injected,
    scanRep_skip_of_allSuff (mRSC "p1") dfRSC
      (fun s hs t => dfRSC_sound s hs "p1" t) A _ hRscA,
    scanRep_skip_of_allSuff (mRSC "p1") dfRSC
      (fun s hs t => dfRSC_sound s hs "p1" t) injectedBlock _
      allSuff_dfRSC_injected,
    htmlPass5_skip sel A _ hBody,
    htmlPass5_skip sel injectedBlock _ allSuff_body_injected]

/-- Dropping the 11-character injected header. -/
theorem drop_hdr (X : List Char) : ("<head>\n    ".data ++ X).drop 11 = X := rfl

/-- C3 (amended): for every HTML document of the form `A ++ "<head>" ++ B`
whose prefix `A` contains no `<head>`, no `<script` and no `</body>`
occurrence and no `src=`/`href=` attribute pattern, the rewriter injects the
bootstrap snippet immediately after the first `<head>` and rewrites only the
remainder: the output is `A ++ <head>-header ++ bootstrap ++ (passes 2-5 of
B)`; consequently the injected bootstrap `<script>` stands at byte offset
`|A| + 11` and no `<script` occurs at any earlier offset, so its offset is
strictly less than the offset of every `<script>` tag of the original
document (whose images all lie in the rewritten `B`). -/
theorem claim_C3_bootstrap_first (A B : List Char) (sel : String)
    (hAttr : allSuff dfAttr A = true)
    (hHead : allSuff (ciMismatch "<head>".data) A = true)
    (hBody : allSuff (ciMismatch "</body>".data) A = true)
    (hScript : allSuff (ciMismatch "<script".data) A = true) :
    htmlRewrite "p1" sel (A ++ ("<head>".data ++ B)) =
      A ++ (injectedBlock ++ tailRewrite "p1" sel B) ∧
    occursAtCI "<script".data
      (htmlRewrite "p1" sel (A ++ ("<head>".data ++ B))) (A.length + 11) ∧
    ∀ j, j < A.length + 11 →
      ¬ occursAtCI "<script".data
        (htmlRewrite "p1" sel (A ++ ("<head>".data ++ B))) j := by
  have h1 : htmlRewrite "p1" sel (A ++ ("<head>".data ++ B)) =
      A ++ (injectedBlock ++ tailRewrite "p1" sel B) := by
    unfold htmlRewrite
    rw [htmlPass1_inject A B hHead]
    exact tail_passes_skip A B sel hAttr hBody hScript
  have hshape : A ++ (injectedBlock ++ tailRewrite "p1" sel B) =
      A ++ ("<head>\n    ".data ++
        (earlyScripts "p1" ++ tailRewrite "p1" sel B)) := by
    unfold injectedBlock
    rw [List.append_assoc]
  have hdrop : ∀ j, j ≤ A.length →
      (A ++ ("<head>\n    ".data ++
        (earlyScripts "p1" ++ tailRewrite "p1" sel B))).drop (j) =
        A.drop j ++ ("<head>\n    ".data ++
          (earlyScripts "p1" ++ tailRewrite "p1" sel B)) := by
    intro j hj
    rw [List.drop_append_eq_append_drop]
    have : j - A.length = 0 := by omega
    rw [this, List.drop_zero]
  refine ⟨h1, ?_, ?_⟩
  · unfold occursAtCI
    rw [h1, hshape, List.drop_append_eq_append_drop,
      List.drop_eq_nil_of_le (by omega), Nat.add_sub_cancel_left,
      drop_hdr, List.nil_append]
    exact ciPre_append_true _ _ _ (by rfl)
  · intro j hj
    unfold occursAtCI
    rw [h1, hshape]
    by_cases hjA : j < A.length
    · rw [hdrop j (by omega)]
      rw [ciMismatch_sound _ _ (allSuff_spec _ A hScript j hjA) _]
      simp
    · have hk : j - A.length < 11 := by omega
      have hAlen : A.length ≤ j := by omega
      rw [List.drop_append_eq_append_drop, List.drop_eq_nil_of_le (by omega),
        List.nil_append, List.drop_append_eq_append_drop]
      have hhl : ("<head>\n    ".data : List Char).length = 11 := rfl
      rw [hhl]
      have h0 : j - A.length - 11 = 0 := by omega
      rw [h0, List.drop_zero]
      have hsp := allSuff_spec _ _ allSuff_script_hdr (j - A.length) (by rw [hhl]; omega)
      rw [ciMismatch_sound _ _ hsp _]
      simp

/-- C3 counterexample: a document with a `<script>` tag but no `<head>` tag
is processed by the HTML rewriter without any bootstrap injection at all
(the output carries no bootstrap snippet, so no injected-script offset
exists, let alone one below every original script tag); the selection
script is still appended before `</body>`. -/
theorem claim_C3_counterexample :
    ciHasSub "<head>".data "<body><script>alert(1)</script></body>".data = false ∧
    htmlRewrite "p1" "" "<body><script>alert(1)</script></body>".data =
      "<body><script>alert(1)</script><script></script></body>".data ∧
    ciHasSub "var proxyPrefix".data
      (htmlRewrite "p1" "" "<body><script>alert(1)</script></body>".data) = false := by
  refine ⟨by decide, by decide, by decide⟩

/-- C3 witness. -/
theorem claim_C3_bootstrap_first_witness :
    allSuff dfAttr "<!DOCTYPE html><html>".data = true ∧
    allSuff (ciMismatch "<head>".data) "<!DOCTYPE html><html>".data = true ∧
    allSuff (ciMismatch "</body>".data) "<!DOCTYPE html><html>".data = true ∧
    allSuff (ciMismatch "<script".data) "<!DOCTYPE html><html>".data = true ∧
    (htmlRewrite "p1" "S" ("<!DOCTYPE html><html>".data ++
        ("<head>".data ++ "</head><body><script>x()</script></body></html>".data)) =
      "<!DOCTYPE html><html>".data ++
        (injectedBlock ++
          tailRewrite "p1" "S"
            "</head><body><script>x()</script></body></html>".data) ∧
      occursAtCI "<script".data
        (htmlRewrite "p1" "S" ("<!DOCTYPE html><html>".data ++
          ("<head>".data ++ "</head><body><script>x()</script></body></html>".data)))
        ("<!DOCTYPE html><html>".data.length + 11) ∧
      ∀ j, j < "<!DOCTYPE html><html>".data.length + 11 →
        ¬ occursAtCI "<script".data
          (htmlRewrite "p1" "S" ("<!DOCTYPE html><html>".data ++
            ("<head>".data ++
              "</head><body><script>x()</script></body></html>".data))) j) :=
  ⟨by decide, by decide, by decide, by decide,
    claim_C3_bootstrap_first "<!DOCTYPE html><html>".data
      "</head><body><script>x()</script></body></html>".data "S"
      (by decide) (by decide) (by decide) (by decide)⟩

/-- C10: every HTML document with no `<head>` tag (case-insensitive)
receives no client-bootstrap snippet at all: the injection pass is the
identity on it, so the rewritten output equals exactly the snippet-free tail
pipeline — attribute rewriting, inline module-import rewriting, RSC
rewriting and the end-of-body selection-script append are still performed,
and nothing else happens.  On a concrete such document the output is exactly
the input with its `src` attribute and inline `import(...)` proxied and
`<script>SELECTION_SCRIPT</script>` inserted before `</body>`. -/
theorem claim_C10_no_head_keeps_other_rewrites :
    (∀ (id sel : String) (html : List Char),
      ciHasSub "<head>".data html = false →
      htmlRewrite id sel html = tailRewrite id sel html) ∧
    (∀ (sel : String),
      htmlRewrite "p1" sel
        ("<html><body><img src=\"/logo.png\"><script type=\"module\">" ++
          "import(\"/src/m.js\")</script><script>plain()</script></body></html>").data =
        ("<html><body><img src=\"/api/projects/p1/proxy?path=%2Flogo.png\">" ++
          "<script type=\"module\">" ++
          "import(\"/api/projects/p1/proxy?path=%2Fsrc%2Fm.js\")</script>" ++
          "<script>plain()</script><script>").data ++
        (sel.data ++ "</script></body></html>".data)) := by
  constructor
  · intro id sel html h
    unfold htmlRewrite tailRewrite htmlPass1
    rw [h]
    simp
  intro sel
  unfold htmlRewrite
  have h1 : htmlPass1 "p1"
      ("<html><body><img src=\"/logo.png\"><script type=\"module\">" ++
        "import(\"/src/m.js\")</script><script>plain()</script></body></html>").data =
      ("<html><body><img src=\"/logo.png\"><script type=\"module\">" ++
        "import(\"/src/m.js\")</script><script>plain()</script></body></html>").data := by
    decide
  have h2 : htmlPass4 "p1" (htmlPass3 "p1" (htmlPass2 "p1"
      ("<html><body><img src=\"/logo.png\"><script type=\"module\">" ++
        "import(\"/src/m.js\")</script><script>plain()</script></body></html>").data)) =
      ("<html><body><img src=\"/api/projects/p1/proxy?path=%2Flogo.png\">" ++
        "<script type=\"module\">" ++
        "import(\"/api/projects/p1/proxy?path=%2Fsrc%2Fm.js\")</script>" ++
        "<script>plain()</script>").data ++
      ("</body>".data ++ "</html>".data) := by decide
  rw [h1, h2]
  rw [htmlPass5_skip sel _ _ (by decide)]
  unfold htmlPass5
  rw [ciHasSub_self _ (by decide)]
  simp only [if_true]
  rw [repFirstCI_self _ _ (by decide)]
  simp [List.append_assoc]

/-- C10 witness: a concrete document with no `<head>` tag. -/
theorem claim_C10_no_head_keeps_other_rewrites_witness :
    ciHasSub "<head>".data "<body><a href=\"/s.css\"></a></body>".data = false ∧
    htmlRewrite "p1" "S" "<body><a href=\"/s.css\"></a></body>".data =
      tailRewrite "p1" "S" "<body><a href=\"/s.css\"></a></body>".data :=
  ⟨by decide, claim_C10_no_head_keeps_other_rewrites.1 "p1" "S"
    "<body><a href=\"/s.css\"></a></body>".data (by decide)⟩

/-- C7: a `?url` asset-URL-export module is excluded from the CSS-import and
generic import-rewrite passes — for such a path the script rewriter is
exactly the `export default "<path>.css"` rewrite (given the module is not
the webpack runtime) — and on the body `export default "/src/app.css"` it
produces `export default "<proxyPrefix>%2Fsrc%2Fapp.css%3Fdirect"`: the
percent-encoded path carrying the `?direct` raw-content marker. -/
theorem claim_C7_asset_url_export :
    (∀ (id : String) (path js : List Char),
      hasSub "?url".data path = true →
      hasSub "webpack".data path = false →
      scriptRewrite id path js = scanRep (mExportUrl id) js) ∧
    (∀ (path : List Char),
      hasSub "?url".data path = true →
      scriptRewrite "p1" path "export default \"/src/app.css\"".data =
        ("export default \"".data ++
          (proxyPre "p1" ++ "%2Fsrc%2Fapp.css%3Fdirect".data)) ++ ['"']) := by
  constructor
  · intro id path js hurl hwp
    unfold scriptRewrite
    rw [hurl, hwp]
    simp
  · intro path hurl
    unfold scriptRewrite
    rw [hurl]
    have hgate : hasSub "__webpack_require__.p".data
        "export default \"/src/app.css\"".data = false := by decide
    rw [hgate]
    simp only [Bool.and_false, Bool.false_eq_true, if_false, if_true]
    decide

/-- C7 witness. -/
theorem claim_C7_asset_url_export_witness :
    scriptRewrite "p1" "/src/app.css?url".data
        "export default \"/src/app.css\"".data =
      ("export default \"".data ++
        (proxyPre "p1" ++ "%2Fsrc%2Fapp.css%3Fdirect".data)) ++ ['"'] :=
  claim_C7_asset_url_export.2 "/src/app.css?url".data (by decide)

/-- C8: the style rewriter proxies `url(/asset.png)` while leaving `url()`
references whose target starts with `http`, `data:` or a fragment `#id`
byte-for-byte unchanged: on the claim's stylesheet the `#gradient-1`
reference is kept intact while `/asset.png` is proxied, and the matcher
refuses every `url(` occurrence whose target starts with one of the
excluded spellings, whatever follows. -/
theorem claim_C8_style_fragment_exclusion :
    styleRewrite "p1"
        "fill: url(#gradient-1); background: url(/asset.png);".data =
      ("fill: url(#gradient-1); background: url(".data ++
        (proxyPre "p1" ++ "%2Fasset.png".data)) ++ ");".data ∧
    (∀ (id : String) (rest : List Char),
      mStyle id ("url(#".data ++ rest) = none ∧
      mStyle id ("url(http".data ++ rest) = none ∧
      mStyle id ("url(data:".data ++ rest) = none) := by
  constructor
  · decide
  · intro id rest
    refine ⟨rfl, rfl, rfl⟩

theorem ciPre_of_ciHasSub_false (pat : List Char) :
    ∀ (s : List Char), ciHasSub pat s = false → ∀ i, ciPre pat (s.drop i) = false := by
  intro s
  induction s with
  | nil =>
    intro h i
    simpa [List.drop_nil] using h
  | cons c cs ih =>
    intro h i
    have hsplit : ciPre pat (c :: cs) = false ∧ ciHasSub pat cs = false := by
      rw [ciHasSub] at h
      exact ⟨by simpa using (Bool.or_eq_false_iff.mp h).1,
        (Bool.or_eq_false_iff.mp h).2⟩
    cases i with
    | zero => simpa using hsplit.1
    | succ j => simpa using ih hsplit.2 j

/-- The style matcher needs a `url(` opener. -/
theorem mStyle_none_of_no_url (id : String) (s : List Char)
    (h : ciPre "url(".data s = false) : mStyle id s = none := by
  simp [mStyle, h]

/-- C9 (amended): the rewrites are not idempotent in general — re-applying
the style rewriter re-proxies already-proxied `url()` targets — but
idempotence holds in the residual forms the code does guarantee: the style
rewriter is the identity (hence idempotent) on every body containing no
`url(` token, and the `?url` asset-export script rewrite fixes its own
output on a path-only asset-export module. -/
theorem claim_C9_rewrite_idempotence :
    (∀ (id : String) (css : List Char),
      ciHasSub "url(".data css = false → styleRewrite id css = css) ∧
    scriptRewrite "p1" "/src/app.css?url".data
        (scriptRewrite "p1" "/src/app.css?url".data
          "export default \"/src/app.css\"".data) =
      scriptRewrite "p1" "/src/app.css?url".data
        "export default \"/src/app.css\"".data := by
  constructor
  · intro id css h
    unfold styleRewrite
    have hp := scanRep_append_skip (mStyle id) css [] fun i hi => by
      rw [List.append_nil]
      exact mStyle_none_of_no_url id _ (ciPre_of_ciHasSub_false _ css h i)
    rw [List.append_nil] at hp
    rw [hp]
    show css ++ scanRep (mStyle id) [] = css
    rw [show scanRep (mStyle id) [] = [] from rfl, List.append_nil]
  · decide

/-- C9 counterexample: applying the style rewriter twice to
`a:url(/a.png)` double-proxies the reference — the second application
rewrites the already-proxied target again, so
`rewrite (rewrite b) ≠ rewrite b`. -/
theorem claim_C9_counterexample :
    styleRewrite "p1" (styleRewrite "p1" "a:url(/a.png)".data) ≠
      styleRewrite "p1" "a:url(/a.png)".data := by
  decide

/-- C9 witness. -/
theorem claim_C9_rewrite_idempotence_witness :
    styleRewrite "p1" "body \x7b color: red \x7d".data =
      "body \x7b color: red \x7d".data :=
  claim_C9_rewrite_idempotence.1 "p1" "body \x7b color: red \x7d".data (by decide)

/-- A normalized path starts with `/_next` and no longer matches the
malformed-chunk shape. -/
theorem nextChunkShape_next (x : List Char) :
    nextChunkShape ('/' :: '_' :: 'n' :: 'e' :: 'x' :: 't' :: '/' :: x) = false := rfl

/-- The normalizer fixes its own output. -/
theorem normalizeNextPath_idem (p : List Char) :
    normalizeNextPath (normalizeNextPath p) = normalizeNextPath p := by
  unfold normalizeNextPath
  by_cases h : nextChunkShape p
  · simp [h, nextChunkShape_next]
  · simp [h]

/-- C6: the path normalizer is idempotent: for every path `p` — in
particular every malformed chunk path it recognizes —
`normalize (normalize p) = normalize p`. -/
theorem claim_C6_normalizer_idempotent (p : String) :
    normalizePath (normalizePath p) = normalizePath p :=
  congrArg String.mk (normalizeNextPath_idem p.data)

/-- C1 (amended): the transport decision is the spec's table as a pure
function of the session snapshot and the request origin, with the error case
also covering a running session with no recorded (or zero) port: the handler's
decision chain projects onto `resolveSpec` at
(running, port recorded, local origin, relay attached, tunnel present). -/
theorem claim_C1_transport_table (env : Env) (proj : Proj) (isLocal : Bool) :
    decisionOf (resolveTransport env proj isLocal) =
      resolveSpec (proj.devServerStatus == DevStatus.running)
        (!portFalsy proj.devServerPort) isLocal
        (relayAttached env proj) proj.tunnelUrl.isSome := by
  unfold resolveTransport resolveSpec
  by_cases h₁ : proj.devServerStatus = DevStatus.running
  · by_cases h₂ : portFalsy proj.devServerPort
    · simp [h₁, h₂, decisionOf]
    · by_cases h₃ : isLocal
      · simp [h₁, h₂, h₃, decisionOf]
      · by_cases h₄ : relayAttached env proj
        · simp [h₁, h₂, h₃, h₄, decisionOf]
        · by_cases h₅ : proj.tunnelUrl.isSome
          · simp [h₁, h₂, h₃, h₄, h₅, decisionOf]
          · by_cases h₆ : env.useWsProxy && proj.runnerId.isSome
            · simp [h₁, h₂, h₃, h₄, h₅, h₆, decisionOf]
            · simp [h₁, h₂, h₃, h₄, h₅, h₆, decisionOf]
  · simp [h₁, decisionOf]

/-- C1 counterexample: a session whose `devServerStatus` is running but whose
recorded port is absent: the claim's "otherwise a local request origin always
yields DirectLocal" fails — the handler returns the not-running error. -/
theorem claim_C1_counterexample :
    projRunNoPort.devServerStatus = DevStatus.running ∧
    resolveTransport envOn projRunNoPort true = ResolveOutcome.notRunning ∧
    decisionOf (resolveTransport envOn projRunNoPort true) ≠ Decision.directLocal := by
  refine ⟨rfl, rfl, ?_⟩
  decide

/-- A session that is not running always resolves to the not-running error. -/
theorem resolveTransport_notRunning (env : Env) (proj : Proj) (isLocal : Bool)
    (h : proj.devServerStatus ≠ DevStatus.running) :
    resolveTransport env proj isLocal = .notRunning := by
  simp [resolveTransport, h]

/-- C2 (amended): the status-code contract of the `GET` endpoint: (a) a found
session whose dev-server state is not running yields 503 for any path;
(b) for a running session with a recorded nonzero port, a remote-origin
request with no tunnel and no attached relay peer yields 202 with the
machine-readable `X-Tunnel-Status: pending` marker header; (c) an upstream
call that exceeds the 30-second deadline (the `AbortError` outcome) on a
routed request yields 504, not 502 or 500. -/
theorem claim_C2_status_contract :
    (∀ (env : Env) (id : String) (proj : Proj) (host rawPath : String)
       (outcome : FetchOutcome) (sel : String),
       proj.devServerStatus ≠ DevStatus.running →
       (handleGET env id (some proj) host rawPath outcome sel).status = 503) ∧
    (∀ (env : Env) (id : String) (proj : Proj) (host rawPath : String)
       (outcome : FetchOutcome) (sel : String),
       proj.devServerStatus = DevStatus.running →
       portFalsy proj.devServerPort = false →
       frontendIsLocal host = false →
       proj.tunnelUrl = none →
       relayAttached env proj = false →
       (handleGET env id (some proj) host rawPath outcome sel).status = 202 ∧
       ("X-Tunnel-Status", "pending") ∈
         (handleGET env id (some proj) host rawPath outcome sel).headersOut) ∧
    (∀ (env : Env) (id : String) (proj : Proj) (host rawPath : String)
       (sel : String) (t : Transport),
       resolveTransport env proj (frontendIsLocal host) = .route t →
       (handleGET env id (some proj) host rawPath .timeoutAbort sel).status = 504 ∧
       (handleGET env id (some proj) host rawPath .timeoutAbort sel).status ≠ 502 ∧
       (handleGET env id (some proj) host rawPath .timeoutAbort sel).status ≠ 500) := by
  refine ⟨?_, ?_, ?_⟩
  · intro env id proj host rawPath outcome sel h
    simp [handleGET, resolveTransport_notRunning env proj _ h]
  · intro env id proj host rawPath outcome sel h₁ h₂ h₃ h₄ h₅
    have hres : resolveTransport env proj (frontendIsLocal host) = .pendingWs ∨
        resolveTransport env proj (frontendIsLocal host) = .pendingTunnel := by
      unfold resolveTransport
      by_cases h₆ : env.useWsProxy && proj.runnerId.isSome
      · simp [h₁, h₂, h₃, h₄, h₅, h₆]
      · simp [h₁, h₂, h₃, h₄, h₅, h₆]
    rcases hres with hres | hres <;> simp [handleGET, hres]
  · intro env id proj host rawPath sel t h
    simp [handleGET, h]

/-- C2 counterexample: a remote-origin request against a session recorded as
running but with no recorded port, with no tunnel and no relay: the claim's
202 row does not apply — the handler returns 503. -/
theorem claim_C2_counterexample :
    projRunNoPort.devServerStatus = DevStatus.running ∧
    (handleGET envOff "p1" (some projRunNoPort) "app.example.com" "/"
        .timeoutAbort "").status = 503 := by
  constructor
  · rfl
  · rfl

/-- C2 witness. -/
theorem claim_C2_status_contract_witness :
    (handleGET envOff "p1" (some (⟨.stopped, none, none, none⟩ : Proj))
        "app.example.com" "/" .timeoutAbort "").status = 503 ∧
    ((handleGET envOff "p1" (some projOk) "app.example.com" "/"
        .timeoutAbort "").status = 202 ∧
      ("X-Tunnel-Status", "pending") ∈
        (handleGET envOff "p1" (some projOk) "app.example.com" "/"
          .timeoutAbort "").headersOut) ∧
    (handleGET envOff "p1" (some projOk) "localhost:3000" "/"
        .timeoutAbort "").status = 504 := by
  refine ⟨?_, ?_, ?_⟩
  · exact claim_C2_status_contract.1 envOff "p1" _ _ _ _ _ (by decide)
  · exact claim_C2_status_contract.2.1 envOff "p1" projOk _ _ _ _ rfl rfl
      (by decide) rfl rfl
  · exact (claim_C2_status_contract.2.2 envOff "p1" projOk "localhost:3000" "/" ""
      (.directLocal 3000) (by decide)).1

/-- C4 (amended): a forwarded call that fails at the transport level (not a
timeout) does not produce 502 or 503: a fetch `TypeError` (`Failed to
fetch`, the runtime's connection-level failure) yields 404 with a diagnostic
body, and any other non-timeout failure yields 500 — both distinct from the
504 timeout case. -/
theorem claim_C4_transport_failure :
    (∀ (env : Env) (id : String) (proj : Proj) (host rawPath sel : String)
       (t : Transport),
       resolveTransport env proj (frontendIsLocal host) = .route t →
       (handleGET env id (some proj) host rawPath .failedFetch sel).status = 404 ∧
       (handleGET env id (some proj) host rawPath .failedFetch sel).status ≠ 502 ∧
       (handleGET env id (some proj) host rawPath .failedFetch sel).status ≠ 503 ∧
       (handleGET env id (some proj) host rawPath .failedFetch sel).status ≠ 504) ∧
    (∀ (env : Env) (id : String) (proj : Proj) (host rawPath sel msg : String)
       (t : Transport),
       resolveTransport env proj (frontendIsLocal host) = .route t →
       (handleGET env id (some proj) host rawPath (.otherError msg) sel).status = 500 ∧
       (handleGET env id (some proj) host rawPath (.otherError msg) sel).status ≠ 504) := by
  constructor
  · intro env id proj host rawPath sel t h
    simp [handleGET, h]
  · intro env id proj host rawPath sel msg t h
    simp [handleGET, h]

/-- C4 counterexample: a routed request whose fetch rejects with the
connection-level `Failed to fetch` `TypeError` is answered with 404 — not
with 502 or 503 as the claim states. -/
theorem claim_C4_counterexample :
    (handleGET envOff "p1" (some projOk) "localhost:3000" "/x.png"
        .failedFetch "").status = 404 ∧
    ¬((handleGET envOff "p1" (some projOk) "localhost:3000" "/x.png"
        .failedFetch "").status = 502 ∨
      (handleGET envOff "p1" (some projOk) "localhost:3000" "/x.png"
        .failedFetch "").status = 503) := by
  constructor
  · rfl
  · decide

/-- C4 witness. -/
theorem claim_C4_transport_failure_witness :
    (handleGET envOff "p1" (some projOk) "localhost:3000" "/a" .failedFetch "").status
        = 404 ∧
    (handleGET envOff "p1" (some projOk) "localhost:3000" "/a"
        (.otherError "boom") "").status = 500 := by
  constructor
  · exact (claim_C4_transport_failure.1 envOff "p1" projOk "localhost:3000" "/a" ""
      (.directLocal 3000) (by decide)).1
  · exact (claim_C4_transport_failure.2 envOff "p1" projOk "localhost:3000" "/a" ""
      "boom" (.directLocal 3000) (by decide)).1

/-- C5 (amended): a non-2xx upstream response is not treated as a proxy
error and its status is returned to the caller unchanged, but the response
body is replaced by the synthetic diagnostic
`Upstream error: <status> <statusText>` and only a permissive CORS header is
attached: the upstream headers and body are not forwarded. -/
theorem claim_C5_upstream_status_passthrough
    (env : Env) (id : String) (proj : Proj) (host rawPath sel : String)
    (t : Transport) (r : Upstream)
    (hroute : resolveTransport env proj (frontendIsLocal host) = .route t)
    (hstatus : respOk r.status = false) :
    (handleGET env id (some proj) host rawPath (.ok r) sel).status = r.status ∧
    (handleGET env id (some proj) host rawPath (.ok r) sel).body =
      "Upstream error: " ++ toString r.status ++ " " ++ r.statusText ∧
    (handleGET env id (some proj) host rawPath (.ok r) sel).headersOut =
      [("Access-Control-Allow-Origin", "*")] := by
  refine ⟨?_, ?_, ?_⟩ <;> simp [handleGET, hroute, hstatus]

/-- C5 counterexample: the upstream 418 response body `original-body` is not
passed through — the proxy substitutes its synthetic diagnostic body (only
the status survives). -/
theorem claim_C5_counterexample :
    (handleGET envOff "p1" (some projOk) "localhost:3000" "/t"
        (.ok ⟨418, "I'm a teapot", "text/plain", "original-body", []⟩) "").status
        = 418 ∧
    (handleGET envOff "p1" (some projOk) "localhost:3000" "/t"
        (.ok ⟨418, "I'm a teapot", "text/plain", "original-body", []⟩) "").body
        ≠ "original-body" := by
  constructor
  · rfl
  · decide

/-- C5 witness. -/
theorem claim_C5_upstream_status_passthrough_witness :
    (handleGET envOff "p1" (some projOk) "localhost:3000" "/t"
        (.ok ⟨500, "Internal Server Error", "text/html", "<h1>err</h1>", []⟩) "").status
        = 500 ∧
    (handleGET envOff "p1" (some projOk) "localhost:3000" "/t"
        (.ok ⟨500, "Internal Server Error", "text/html", "<h1>err</h1>", []⟩) "").body
        = "Upstream error: 500 Internal Server Error" := by
  have h := claim_C5_upstream_status_passthrough envOff "p1" projOk "localhost:3000"
    "/t" "" (.directLocal 3000)
    (⟨500, "Internal Server Error", "text/html", "<h1>err</h1>", []⟩ : Upstream)
    (by decide) (by decide)
  exact ⟨h.1, h.2.1⟩

end Hatchway
